import Mathlib

/-!
Verification of the adaptive e-learning application's data/aggregation layer.

The Python source is shallowly embedded: SQLAlchemy rows become Lean
structures, table contents become lists of rows, the stats-rollup and
progress-aggregation functions become pure state transformers over those
lists, and the controller-level quiz grading becomes a pure function of the
submitted answers.  Python `float` arithmetic is idealised as exact rational
arithmetic (`ℚ`); Python `int()` truncation, `//` floor division, `or`
defaulting on falsy values (`None` and `0`), and `round(_, 1)`
(half-to-even) are modelled explicitly below.
-/

/-- Python truthiness-based defaulting `x or d` for a nullable integer
column: `None` and `0` are falsy and replaced by the default. -/
def pyOrInt (x : Option Int) (d : Int) : Int :=
  match x with
  | none => d
  | some v => if v = 0 then d else v

/-- Python `int()` applied to a (here: exact rational) float value:
truncation toward zero. -/
def pyInt (q : ℚ) : ℤ :=
  if q < 0 then -⌊-q⌋ else ⌊q⌋

/-- Round-half-to-even on an exact rational, the idealisation of Python's
`round` on a number that is exactly representable. -/
def roundHalfEven (q : ℚ) : ℤ :=
  let f := ⌊q⌋
  let r := q - f
  if r < 1/2 then f
  else if (1 : ℚ)/2 < r then f + 1
  else if f % 2 = 0 then f else f + 1

/-- Python `round(q, 1)` on an exact rational. -/
def pyRound1 (q : ℚ) : ℚ :=
  (roundHalfEven (q * 10) : ℚ) / 10

/-- Python `str.title()`: the first character of every maximal alphabetic
run is uppercased, the remaining characters of the run are lowercased. -/
def pyTitle (s : String) : String :=
  (s.data.foldl
    (fun (acc : List Char × Bool) c =>
      (acc.1 ++ [if acc.2 then c.toLower else c.toUpper], c.isAlpha))
    ([], false)).1 |> String.mk

/-- Python truthiness of an optional foreign-key column (`None` and `0` are
falsy; stored row ids are positive). -/
def pyTruthyOptNat (x : Option Nat) : Bool :=
  match x with
  | none => false
  | some v => v ≠ 0

/-- Python truthiness of an optional string column (`None` and the empty
string are falsy). -/
def pyTruthyOptStr (x : Option String) : Bool :=
  match x with
  | none => false
  | some s => s ≠ ""

/-! ## Domain Configuration Registry (`domain_configurations.py`) -/

/-- One record of `DOMAIN_CONFIGURATIONS`: every entry of the Python dict
carries exactly these eleven keys. -/
structure DomainConfig where
  display_name : String
  learning_characteristics : List String
  content_types : List String
  career_applications : List String
  visualization_types : List String
  assessment_methods : List String
  extraction_instructions : String
  qa_guidelines : String
  quiz_requirements : String
  simplification_guidelines : String
  visualization_guidelines : String
  deriving DecidableEq, Repr

/-- A configuration value is either a string or a list of strings; used to
view a `DomainConfig` as the key/value pairs of the source dict. -/
inductive ConfVal where
  | s (v : String)
  | l (vs : List String)
  deriving DecidableEq, Repr

/-- View of a `DomainConfig` as the association list of the Python dict it
embeds, key order as in the source. -/
def DomainConfig.toPairs (c : DomainConfig) : List (String × ConfVal) :=
  [("display_name", .s c.display_name),
   ("learning_characteristics", .l c.learning_characteristics),
   ("content_types", .l c.content_types),
   ("career_applications", .l c.career_applications),
   ("visualization_types", .l c.visualization_types),
   ("assessment_methods", .l c.assessment_methods),
   ("extraction_instructions", .s c.extraction_instructions),
   ("qa_guidelines", .s c.qa_guidelines),
   ("quiz_requirements", .s c.quiz_requirements),
   ("simplification_guidelines", .s c.simplification_guidelines),
   ("visualization_guidelines", .s c.visualization_guidelines)]

/-- Keys required of every configuration record (spec §4.1). -/
def requiredConfigKeys : List String :=
  ["display_name", "learning_characteristics", "content_types",
   "career_applications", "visualization_types", "assessment_methods",
   "extraction_instructions", "qa_guidelines", "quiz_requirements",
   "simplification_guidelines", "visualization_guidelines"]
def DOMAIN_CONFIGURATIONS : List (String × DomainConfig) := [
  ("economics", {
    display_name := "Economics",
    learning_characteristics := ["quantitative analysis", "policy implications", "market dynamics"],
    content_types := ["concepts", "models", "case studies", "calculations", "charts"],
    career_applications := ["consulting", "finance", "policy analysis", "business strategy"],
    visualization_types := ["line charts", "bar charts", "scatter plots", "economic models"],
    assessment_methods := ["multiple_choice", "case_analysis", "problem_solving", "policy evaluation"],
    extraction_instructions := "\n        - Focus on market applications, policy implications, and business strategy\n        - Include quantitative analysis and data interpretation\n        - Use current economic events and business cases\n        - Emphasize career paths: consulting, finance, policy analysis, business analysis\n        - Include interactive economic models and calculations\n        - Connect macroeconomic and microeconomic principles\n        - Show real-world market examples and company case studies\n        ",
    qa_guidelines := "\n        - Provide quantitative examples with real economic data\n        - Connect concepts to current market conditions and policy debates\n        - Include career applications in consulting, finance, and business\n        - Use business case studies and company examples\n        - Explain mathematical relationships and economic models\n        - Reference current economic research and trends\n        ",
    quiz_requirements := "\n        - Include scenario-based questions using real companies and markets\n        - Test quantitative reasoning with economic calculations\n        - Ask about policy implications and business applications\n        - Include questions about economic model interpretation\n        - Test understanding of cause-and-effect relationships in markets\n        ",
    simplification_guidelines := "\n        - Use business analogies and market examples\n        - Break down mathematical models into logical steps\n        - Connect abstract concepts to everyday economic decisions\n        - Use current events and recognizable company examples\n        - Explain the \"why\" behind economic relationships\n        ",
    visualization_guidelines := "\n        - Create interactive supply/demand curves and market models\n        - Use professional business color schemes (blues, greens)\n        - Include economic indicators and trend analysis charts\n        - Show cause-and-effect relationships with flow diagrams\n        - Make charts suitable for business presentations\n        " }),
  ("computer_science", {
    display_name := "Computer Science",
    learning_characteristics := ["hands-on coding", "algorithm thinking", "system design"],
    content_types := ["concepts", "algorithms", "code examples", "system designs", "case studies"],
    career_applications := ["software development", "data science", "system architecture", "cybersecurity"],
    visualization_types := ["flowcharts", "system diagrams", "algorithm visualizations", "network diagrams"],
    assessment_methods := ["coding problems", "system design", "algorithm analysis", "debugging"],
    extraction_instructions := "\n        - Include code examples and algorithm visualizations\n        - Focus on practical implementation and system design\n        - Use current technology trends and industry practices\n        - Emphasize career paths: software development, data science, system architecture\n        - Include interactive coding exercises and technical diagrams\n        - Connect theoretical concepts to real-world software systems\n        - Show examples from major tech companies and open source projects\n        ",
    qa_guidelines := "\n        - Provide code examples in popular programming languages\n        - Explain algorithms with step-by-step breakdowns\n        - Include system design considerations and trade-offs\n        - Reference current technology stacks and industry practices\n        - Connect concepts to real software engineering challenges\n        - Suggest hands-on projects and coding exercises\n        ",
    quiz_requirements := "\n        - Include algorithm analysis and complexity questions\n        - Test system design and architecture understanding\n        - Ask about debugging and problem-solving approaches\n        - Include code reading and interpretation questions\n        - Test knowledge of current technologies and frameworks\n        ",
    simplification_guidelines := "\n        - Use coding analogies and programming metaphors\n        - Break down algorithms into pseudo-code steps\n        - Connect abstract concepts to familiar software applications\n        - Use examples from popular apps and websites\n        - Explain the practical benefits of different approaches\n        ",
    visualization_guidelines := "\n        - Create interactive algorithm step-through animations\n        - Use technical color schemes suitable for developers\n        - Include system architecture and data flow diagrams\n        - Show code structure and class relationship diagrams\n        - Make visualizations that developers would use professionally\n        " }),
  ("mathematics", {
    display_name := "Mathematics",
    learning_characteristics := ["logical reasoning", "problem solving", "proof construction"],
    content_types := ["theorems", "proofs", "problem sets", "geometric interpretations", "applications"],
    career_applications := ["data analysis", "engineering", "finance", "research", "teaching"],
    visualization_types := ["graphs", "geometric diagrams", "function plots", "statistical charts"],
    assessment_methods := ["problem_solving", "proof_writing", "application_problems", "concept_explanation"],
    extraction_instructions := "\n        - Provide step-by-step problem solving approaches\n        - Include visual proofs and geometric interpretations\n        - Focus on applications in science, engineering, and finance\n        - Emphasize logical reasoning and mathematical thinking\n        - Include interactive formula calculators and geometric visualizations\n        - Connect pure mathematics to practical applications\n        - Show historical context and mathematical discoveries\n        ",
    qa_guidelines := "\n        - Break down complex problems into manageable steps\n        - Provide multiple solution approaches when possible\n        - Include geometric or visual interpretations\n        - Connect mathematical concepts to real-world applications\n        - Explain the intuition behind mathematical relationships\n        - Suggest practice problems and further exploration\n        ",
    quiz_requirements := "\n        - Include multi-step problem-solving questions\n        - Test conceptual understanding, not just computation\n        - Ask about applications in various fields\n        - Include proof-based and reasoning questions\n        - Test ability to connect different mathematical concepts\n        ",
    simplification_guidelines := "\n        - Use visual and geometric analogies\n        - Break complex proofs into logical building blocks\n        - Connect abstract concepts to concrete examples\n        - Use real-world applications to motivate concepts\n        - Explain the \"why\" behind mathematical procedures\n        ",
    visualization_guidelines := "\n        - Create interactive function plotters and geometric tools\n        - Use mathematical color conventions and clear labeling\n        - Include step-by-step proof visualizations\n        - Show geometric interpretations of algebraic concepts\n        - Make tools suitable for mathematical exploration\n        " }),
  ("psychology", {
    display_name := "Psychology",
    learning_characteristics := ["case study analysis", "research methodology", "behavioral observation"],
    content_types := ["theories", "case studies", "research findings", "assessments", "applications"],
    career_applications := ["clinical psychology", "research", "organizational psychology", "counseling"],
    visualization_types := ["behavioral charts", "research diagrams", "brain maps", "statistical plots"],
    assessment_methods := ["case_analysis", "research_design", "theory_application", "ethical_scenarios"],
    extraction_instructions := "\n        - Include case studies and behavioral examples\n        - Focus on research methodology and data interpretation\n        - Use contemporary psychological research and applications\n        - Emphasize career paths: clinical, research, organizational psychology\n        - Include interactive assessments and behavioral visualizations\n        - Connect theories to everyday human behavior\n        - Show examples from clinical and applied settings\n        ",
    qa_guidelines := "\n        - Provide case study examples and behavioral scenarios\n        - Explain research methodology and statistical concepts\n        - Include ethical considerations and professional applications\n        - Reference current psychological research and findings\n        - Connect theories to practical therapeutic and organizational contexts\n        - Suggest ways to observe and apply concepts in daily life\n        ",
    quiz_requirements := "\n        - Include case study analysis questions\n        - Test understanding of research design and methodology\n        - Ask about ethical considerations in psychological practice\n        - Include questions about theory application to real situations\n        - Test knowledge of assessment tools and interventions\n        ",
    simplification_guidelines := "\n        - Use relatable human behavior examples\n        - Connect theories to everyday psychological experiences\n        - Break down research concepts into practical terms\n        - Use case studies from diverse populations\n        - Explain the practical implications of psychological findings\n        ",
    visualization_guidelines := "\n        - Create behavioral pattern charts and assessment tools\n        - Use professional clinical color schemes\n        - Include research data visualization and statistical charts\n        - Show psychological process diagrams and flow charts\n        - Make visualizations suitable for clinical and research contexts\n        " }),
  ("business", {
    display_name := "Business",
    learning_characteristics := ["strategic thinking", "case analysis", "decision making"],
    content_types := ["case studies", "frameworks", "financial models", "strategy tools", "market analysis"],
    career_applications := ["management", "consulting", "entrepreneurship", "finance", "marketing"],
    visualization_types := ["business models", "financial charts", "strategy diagrams", "process flows"],
    assessment_methods := ["case_analysis", "strategic_planning", "financial_modeling", "presentation"],
    extraction_instructions := "\n        - Include business cases and strategic scenarios\n        - Focus on decision-making frameworks and analysis\n        - Use current market examples and company studies\n        - Emphasize leadership, strategy, and operational excellence\n        - Include interactive business models and financial calculators\n        - Connect theories to real business challenges and opportunities\n        - Show examples from various industries and company sizes\n        ",
    qa_guidelines := "\n        - Provide business case examples and strategic scenarios\n        - Explain frameworks with practical application steps\n        - Include financial analysis and market considerations\n        - Reference current business trends and company examples\n        - Connect concepts to leadership and management challenges\n        - Suggest ways to apply learning in professional settings\n        ",
    quiz_requirements := "\n        - Include business case analysis questions\n        - Test strategic thinking and decision-making skills\n        - Ask about financial analysis and market evaluation\n        - Include questions about leadership and management scenarios\n        - Test understanding of business frameworks and tools\n        ",
    simplification_guidelines := "\n        - Use recognizable company examples and business scenarios\n        - Connect frameworks to everyday business decisions\n        - Break down complex strategies into actionable steps\n        - Use current market events and business news\n        - Explain the practical benefits of business tools and concepts\n        ",
    visualization_guidelines := "\n        - Create interactive business model canvases and strategy tools\n        - Use professional business color schemes and formatting\n        - Include financial dashboards and performance metrics\n        - Show organizational charts and process flow diagrams\n        - Make visualizations suitable for business presentations\n        " })
]
/-- `get_domain_config` (`domain_configurations.py`): registry lookup with a
generic fallback record for unknown domain keys; corresponds to the Python
dict `.get(domain, fallback)`. -/
def get_domain_config (domain : String) : DomainConfig :=
  (DOMAIN_CONFIGURATIONS.lookup domain).getD
    { display_name := pyTitle (domain.replace "_" " "),
      learning_characteristics := ["conceptual understanding", "practical application"],
      content_types := ["concepts", "examples", "case studies"],
      career_applications := ["professional development"],
      visualization_types := ["charts", "diagrams"],
      assessment_methods := ["multiple_choice", "case_analysis"],
      extraction_instructions := "Focus on clear explanations with practical examples",
      qa_guidelines := "Provide clear answers with real-world context",
      quiz_requirements := "Create questions that test both understanding and application",
      simplification_guidelines := "Use simple language with relevant examples",
      visualization_guidelines := "Create clear, informative visualizations" }

/-- Name for the fallback record returned by `get_domain_config` on an
unknown key; identical to the default argument in the source. -/
def fallbackDomainConfig (domain : String) : DomainConfig :=
  { display_name := pyTitle (domain.replace "_" " "),
    learning_characteristics := ["conceptual understanding", "practical application"],
    content_types := ["concepts", "examples", "case studies"],
    career_applications := ["professional development"],
    visualization_types := ["charts", "diagrams"],
    assessment_methods := ["multiple_choice", "case_analysis"],
    extraction_instructions := "Focus on clear explanations with practical examples",
    qa_guidelines := "Provide clear answers with real-world context",
    quiz_requirements := "Create questions that test both understanding and application",
    simplification_guidelines := "Use simple language with relevant examples",
    visualization_guidelines := "Create clear, informative visualizations" }

/-- The four keys of `CONTENT_BLOCK_TEMPLATES`. -/
inductive TemplateKey where
  | concept_explanation
  | interactive_visualization
  | case_study
  | problem_solving
  deriving DecidableEq, Repr

/-- `CONTENT_BLOCK_TEMPLATES` (`domain_configurations.py`): the four fixed
template strings (JSON braces written with hex escapes). -/
def CONTENT_BLOCK_TEMPLATES : TemplateKey → String
  | .concept_explanation => "\n    \x7b\n      \"type\": \"concept_explanation\",\n      \"title\": \"Concept name\",\n      \"difficulty_level\": \"beginner|intermediate|advanced\",\n      \"content\": \"Clear, engaging explanation adapted to domain\",\n      \"key_points\": [\"main ideas broken down\"],\n      \"examples\": [\"domain-specific examples\"],\n      \"applications\": [\"how this concept is used professionally\"],\n      \"common_misconceptions\": [\"what students often get wrong\"],\n      \"study_tips\": [\"how to master this concept\"]\n    \x7d"
  | .interactive_visualization => "\n    \x7b\n      \"type\": \"interactive_visualization\",\n      \"title\": \"Visualization title\",\n      \"visualization_type\": \"chart|diagram|flowchart|timeline|network\",\n      \"description\": \"What this visualization shows\",\n      \"purpose\": \"Why this visualization helps learning\",\n      \"data_structure\": \"structure of data to visualize\",\n      \"interactive_features\": [\"features that enhance understanding\"],\n      \"interpretation_guide\": \"how to read and understand the visualization\"\n    \x7d"
  | .case_study => "\n    \x7b\n      \"type\": \"case_study\",\n      \"title\": \"Case study title\",\n      \"scenario\": \"realistic situation from the field\",\n      \"background\": \"context and setting\",\n      \"key_issues\": [\"main problems or questions\"],\n      \"analysis_framework\": \"how to approach this type of case\",\n      \"discussion_questions\": [\"questions for deeper thinking\"],\n      \"lessons_learned\": [\"key insights and applications\"]\n    \x7d"
  | .problem_solving => "\n    \x7b\n      \"type\": \"problem_solving\",\n      \"title\": \"Problem or exercise title\",\n      \"problem_statement\": \"Clear problem description\",\n      \"solution_approach\": \"step-by-step solving strategy\",\n      \"worked_example\": \"detailed solution example\",\n      \"practice_problems\": [\"similar problems for practice\"],\n      \"common_errors\": [\"mistakes to avoid\"]\n    \x7d"
/-- Template-selection logic of `get_content_block_templates`: which of the
four templates are appended, in source order. -/
def selectedTemplateKeys (domain : String) (content_types : List String) :
    List TemplateKey :=
  let t1 := [TemplateKey.concept_explanation]
  let t2 :=
    if ["charts", "diagrams", "visualizations"].any
        (fun viz_type => content_types.contains viz_type) then
      t1 ++ [TemplateKey.interactive_visualization]
    else t1
  let t3 :=
    if ["business", "psychology", "medicine", "history", "law"].contains domain
        || content_types.contains "case studies" then
      t2 ++ [TemplateKey.case_study]
    else t2
  if ["mathematics", "engineering", "economics", "computer_science"].contains domain
      || content_types.contains "calculations" then
    t3 ++ [TemplateKey.problem_solving]
  else t3

/-- `get_content_block_templates` (`domain_configurations.py`): the selected
templates concatenated with the fixed separator. -/
def get_content_block_templates (domain : String) (content_types : List String) :
    String :=
  String.intercalate ",\n        "
    ((selectedTemplateKeys domain content_types).map CONTENT_BLOCK_TEMPLATES)

/-! ## Claims C8 and C9: Domain Configuration Registry -/

/-- C9: `get_domain_config` never fails: for a key present in the registry
it returns that key's static configuration record, for every key not
present it returns the generic fallback record, and in all cases every
required key is present in the returned record. -/
theorem get_domain_config_total_and_faithful :
    ∀ domain : String,
      (∀ c, DOMAIN_CONFIGURATIONS.lookup domain = some c →
        get_domain_config domain = c)
      ∧ (DOMAIN_CONFIGURATIONS.lookup domain = none →
        get_domain_config domain = fallbackDomainConfig domain)
      ∧ (∀ k ∈ requiredConfigKeys,
        k ∈ ((get_domain_config domain).toPairs.map Prod.fst)) := by
  intro domain
  refine ⟨fun c h => ?_, fun h => ?_, fun k hk => ?_⟩
  · simp [get_domain_config, h]
  · simp only [get_domain_config, h, Option.getD_none]
    rfl
  · simpa [DomainConfig.toPairs, requiredConfigKeys] using hk

/-- Witness for C9 at the unknown key "medicine". -/
theorem get_domain_config_total_and_faithful_witness :
    get_domain_config "medicine" = fallbackDomainConfig "medicine"
      ∧ "qa_guidelines" ∈
        ((get_domain_config "medicine").toPairs.map Prod.fst) := by
  refine ⟨(get_domain_config_total_and_faithful "medicine").2.1 (by rfl),
    (get_domain_config_total_and_faithful "medicine").2.2 "qa_guidelines" ?_⟩
  simp [requiredConfigKeys]

/-- C8: for every domain and content-type list, the selected content-block
templates contain the concept-explanation template exactly once, and each of
the other three templates exactly when its trigger condition holds. -/
theorem selectedTemplateKeys_spec :
    ∀ (domain : String) (content_types : List String),
      (selectedTemplateKeys domain content_types).count
          TemplateKey.concept_explanation = 1
      ∧ (TemplateKey.interactive_visualization ∈
            selectedTemplateKeys domain content_types ↔
          ("charts" ∈ content_types ∨ "diagrams" ∈ content_types ∨
            "visualizations" ∈ content_types))
      ∧ (TemplateKey.case_study ∈ selectedTemplateKeys domain content_types ↔
          (domain = "business" ∨ domain = "psychology" ∨ domain = "medicine" ∨
            domain = "history" ∨ domain = "law" ∨
            "case studies" ∈ content_types))
      ∧ (TemplateKey.problem_solving ∈ selectedTemplateKeys domain content_types ↔
          (domain = "mathematics" ∨ domain = "engineering" ∨
            domain = "economics" ∨ domain = "computer_science" ∨
            "calculations" ∈ content_types)) := by
  intro domain cts
  have hv : (["charts", "diagrams", "visualizations"].any
      (fun viz_type => cts.contains viz_type)) = true ↔
      ("charts" ∈ cts ∨ "diagrams" ∈ cts ∨ "visualizations" ∈ cts) := by
    simp
  have hc : (["business", "psychology", "medicine", "history", "law"].contains domain
      || cts.contains "case studies") = true ↔
      (domain = "business" ∨ domain = "psychology" ∨ domain = "medicine" ∨
        domain = "history" ∨ domain = "law" ∨ "case studies" ∈ cts) := by
    simp [or_assoc]
  have hp : (["mathematics", "engineering", "economics", "computer_science"].contains domain
      || cts.contains "calculations") = true ↔
      (domain = "mathematics" ∨ domain = "engineering" ∨
        domain = "economics" ∨ domain = "computer_science" ∨
        "calculations" ∈ cts) := by
    simp [or_assoc]
  rw [← hv, ← hc, ← hp]
  simp only [selectedTemplateKeys]
  cases (["charts", "diagrams", "visualizations"].any
      (fun viz_type => cts.contains viz_type)) <;>
    cases (["business", "psychology", "medicine", "history", "law"].contains domain
      || cts.contains "case studies") <;>
    cases (["mathematics", "engineering", "economics", "computer_science"].contains domain
      || cts.contains "calculations") <;>
    simp

/-- Witness for C8 at domain "economics" with content_types ["charts"]. -/
theorem selectedTemplateKeys_spec_witness :
    (selectedTemplateKeys "economics" ["charts"]).count
        TemplateKey.concept_explanation = 1
      ∧ TemplateKey.problem_solving ∈ selectedTemplateKeys "economics" ["charts"]
      ∧ TemplateKey.interactive_visualization ∈
          selectedTemplateKeys "economics" ["charts"] := by
  refine ⟨(selectedTemplateKeys_spec "economics" ["charts"]).1,
    (selectedTemplateKeys_spec "economics" ["charts"]).2.2.2.mpr ?_,
    (selectedTemplateKeys_spec "economics" ["charts"]).2.1.mpr ?_⟩
  · exact Or.inr (Or.inr (Or.inl rfl))
  · exact Or.inl (by simp)

/-! ## Persistence model (`models.py`)

Rows become structures; a table becomes a list of rows.  Only the columns
read or written by the verified functions are carried.  A nullable integer
column is `Option Int`; a non-nullable one is `Int` (or `Nat` for ids).
The `content_blocks` text column is modelled by `BlocksText`: any stored
string is either the empty string, a non-empty string that is not valid
JSON, or a non-empty string decoding to a JSON array of objects (the only
shape the application ever writes). -/

/-- One JSON object inside a `content_blocks` array; only its `type` key is
inspected (`b.get('type')`), absent when the object has no such key. -/
structure ContentBlock where
  ty : Option String
  deriving DecidableEq, Repr, Inhabited

/-- The text stored in a chapter's `content_blocks` column, classified by
how `json.loads` treats it. -/
inductive BlocksText where
  | emptyStr
  | malformed (s : String)
  | blocks (bs : List ContentBlock)
  deriving DecidableEq, Repr, Inhabited

/-- `Chapter` row (`models.py`). -/
structure Chapter where
  id : Nat
  subject_id : Nat
  title : String
  chapter_number : Option Int
  estimated_study_time : Option Int
  total_content_blocks : Option Int
  concept_count : Option Int
  visualization_count : Option Int
  exercise_count : Option Int
  case_study_count : Option Int
  content_blocks : Option BlocksText
  deriving DecidableEq, Repr, Inhabited

/-- `Subject` row (`models.py`); `created_at` is an abstract timestamp used
only for ordering. -/
structure Subject where
  id : Nat
  name : String
  course_id : Option Nat
  total_chapters : Int
  estimated_read_time : Int
  interactive_elements_count : Int
  created_at : Nat
  deriving DecidableEq, Repr, Inhabited

/-- `Course` row (`models.py`). -/
structure Course where
  id : Nat
  total_subjects : Int
  total_chapters : Int
  estimated_study_hours : Int
  deriving DecidableEq, Repr, Inhabited

/-- The three content tables touched by the rollup updaters. -/
structure DB where
  courses : List Course
  subjects : List Subject
  chapters : List Chapter
  deriving DecidableEq, Repr, Inhabited

/-- `update_course_stats` (`models.py`): recompute a course's counters from
its current subjects; no-op when the course id matches no row. -/
def update_course_stats (db : DB) (course_id : Nat) : DB :=
  { db with courses := db.courses.map (fun course =>
      if course.id = course_id then
        let subjects := db.subjects.filter (fun s => s.course_id == some course_id)
        { course with
          total_subjects := (subjects.length : Int),
          total_chapters := (subjects.map (fun s => s.total_chapters)).sum,
          estimated_study_hours :=
            Int.fdiv ((subjects.map (fun s => s.estimated_read_time)).sum) 60 }
      else course) }

/-- `update_subject_stats` (`models.py`): recompute a subject's counters
from its current chapters (`x or 30` / `x or 0` Python defaulting), then
cascade to the parent course when `subject.course_id` is truthy. -/
def update_subject_stats (db : DB) (subject_id : Nat) : DB :=
  match db.subjects.find? (fun s => s.id == subject_id) with
  | none => db
  | some subject =>
    let chapters := db.chapters.filter (fun c => c.subject_id == subject_id)
    let db' := { db with subjects := db.subjects.map (fun s =>
        if s.id = subject_id then
          { s with
            total_chapters := (chapters.length : Int),
            estimated_read_time :=
              (chapters.map (fun c => pyOrInt c.estimated_study_time 30)).sum,
            interactive_elements_count :=
              (chapters.map (fun c =>
                pyOrInt c.visualization_count 0 + pyOrInt c.exercise_count 0)).sum }
        else s) }
    match subject.course_id with
    | some cid => if cid ≠ 0 then update_course_stats db' cid else db'
    | none => db'

/-- `update_chapter_stats` (`models.py`): when the chapter exists and its
`content_blocks` text is truthy and decodes, recompute the per-type counts
and cascade to the parent subject; a decode error is swallowed (`pass`) and
a falsy text (`None` or the empty string) skips the whole body. -/
def update_chapter_stats (db : DB) (chapter_id : Nat) : DB :=
  match db.chapters.find? (fun c => c.id == chapter_id) with
  | none => db
  | some chapter =>
    match chapter.content_blocks with
    | some (BlocksText.blocks content_blocks) =>
      let db' := { db with chapters := db.chapters.map (fun c =>
          if c.id = chapter_id then
            { c with
              total_content_blocks := some (content_blocks.length : Int),
              concept_count := some
                ((content_blocks.filter (fun b => b.ty == some "concept_explanation")).length : Int),
              visualization_count := some
                ((content_blocks.filter (fun b => b.ty == some "interactive_visualization")).length : Int),
              exercise_count := some
                ((content_blocks.filter (fun b => b.ty == some "problem_solving")).length : Int),
              case_study_count := some
                ((content_blocks.filter (fun b => b.ty == some "case_study")).length : Int) }
          else c) }
      if chapter.subject_id ≠ 0 then update_subject_stats db' chapter.subject_id else db'
    | _ => db

/-! ## Claims C1, C7, C10: stats rollups -/

/-- Helper: a subject row carrying the updated id after `update_subject_stats`
holds exactly the aggregates the updater recomputes. -/
theorem mem_update_subject_stats_spec (db : DB) (sid : Nat) (s : Subject)
    (hs : s ∈ (update_subject_stats db sid).subjects) (hid : s.id = sid) :
    s.total_chapters = ((db.chapters.filter (fun c => c.subject_id == sid)).length : Int)
    ∧ s.estimated_read_time =
        ((db.chapters.filter (fun c => c.subject_id == sid)).map
          (fun c => pyOrInt c.estimated_study_time 30)).sum
    ∧ s.interactive_elements_count =
        ((db.chapters.filter (fun c => c.subject_id == sid)).map
          (fun c => pyOrInt c.visualization_count 0 + pyOrInt c.exercise_count 0)).sum := by
  unfold update_subject_stats at hs
  rcases hfind : db.subjects.find? (fun s => s.id == sid) with _ | subj
  · rw [hfind] at hs
    dsimp only at hs
    have := List.find?_eq_none.mp hfind s hs
    simp [hid] at this
  · rw [hfind] at hs
    dsimp only at hs
    have hsubs : s ∈ db.subjects.map (fun t =>
        if t.id = sid then
          { t with
            total_chapters := (((db.chapters.filter (fun c => c.subject_id == sid)).length : Nat) : Int),
            estimated_read_time :=
              ((db.chapters.filter (fun c => c.subject_id == sid)).map
                (fun c => pyOrInt c.estimated_study_time 30)).sum,
            interactive_elements_count :=
              ((db.chapters.filter (fun c => c.subject_id == sid)).map
                (fun c => pyOrInt c.visualization_count 0 + pyOrInt c.exercise_count 0)).sum }
        else t) := by
      rcases hcid : subj.course_id with _ | cid
      · rw [hcid] at hs; exact hs
      · rw [hcid] at hs
        dsimp only at hs
        by_cases hz : cid ≠ 0
        · rw [if_pos hz] at hs
          exact hs
        · rw [if_neg hz] at hs
          exact hs
    rcases List.mem_map.mp hsubs with ⟨a, ha, rfl⟩
    by_cases haid : a.id = sid
    · simp [haid]
    · rw [if_neg haid] at hid
      exact absurd hid haid

/-- Helper: a course row carrying the updated id after `update_course_stats`
holds exactly the aggregates the updater recomputes. -/
theorem mem_update_course_stats_spec (db : DB) (cid : Nat) (c : Course)
    (hc : c ∈ (update_course_stats db cid).courses) (hid : c.id = cid) :
    c.total_subjects = ((db.subjects.filter (fun s => s.course_id == some cid)).length : Int)
    ∧ c.total_chapters =
        ((db.subjects.filter (fun s => s.course_id == some cid)).map
          (fun s => s.total_chapters)).sum
    ∧ c.estimated_study_hours =
        Int.fdiv (((db.subjects.filter (fun s => s.course_id == some cid)).map
          (fun s => s.estimated_read_time)).sum) 60 := by
  unfold update_course_stats at hc
  rcases List.mem_map.mp hc with ⟨a, ha, rfl⟩
  by_cases haid : a.id = cid
  · simp [haid]
  · rw [if_neg haid] at hid
    exact absurd hid haid

/-- Helper: `update_course_stats` rewrites only the course table. -/
theorem update_course_stats_subjects (db : DB) (cid : Nat) :
    (update_course_stats db cid).subjects = db.subjects := rfl

/-- Helper: `update_subject_stats` never rewrites the chapter table. -/
theorem update_subject_stats_chapters (db : DB) (sid : Nat) :
    (update_subject_stats db sid).chapters = db.chapters := by
  unfold update_subject_stats
  split
  · rfl
  · split
    · split
      · rfl
      · rfl
    · rfl

/-- The rollup example of the spec: a subject with three chapters of
`estimated_study_time` 20/30/40, `visualization_count` 1/0/2 and
`exercise_count` 0. -/
def exRollupDB : DB :=
  { courses := [{ id := 1, total_subjects := 0, total_chapters := 0, estimated_study_hours := 0 }],
    subjects := [{ id := 1, name := "Sample Book", course_id := some 1,
                   total_chapters := 0, estimated_read_time := 0,
                   interactive_elements_count := 0, created_at := 0 }],
    chapters := [
      { id := 1, subject_id := 1, title := "Ch1", chapter_number := some 1,
        estimated_study_time := some 20, total_content_blocks := none,
        concept_count := none, visualization_count := some 1,
        exercise_count := some 0, case_study_count := none, content_blocks := none },
      { id := 2, subject_id := 1, title := "Ch2", chapter_number := some 2,
        estimated_study_time := some 30, total_content_blocks := none,
        concept_count := none, visualization_count := some 0,
        exercise_count := some 0, case_study_count := none, content_blocks := none },
      { id := 3, subject_id := 1, title := "Ch3", chapter_number := some 3,
        estimated_study_time := some 40, total_content_blocks := none,
        concept_count := none, visualization_count := some 2,
        exercise_count := some 0, case_study_count := none, content_blocks := none }] }

/-- C1 (amended): after `update_subject_stats` the updated subject's rollup
counters equal the aggregates over its current chapters, where a chapter's
`estimated_study_time` contributes 30 whenever it is missing **or zero**
(Python `or` defaulting), and missing visualization/exercise counts
contribute 0; `update_course_stats` likewise makes the updated course's
counters the aggregates over its current subjects (`study_hours` by floor
division by 60); neither updater touches the child table it aggregates
over; and the spec's 20/30/40 example yields `estimated_read_time = 90`
and `interactive_elements_count = 3`. -/
theorem rollup_stats_invariant :
    (∀ (db : DB) (sid : Nat) (s : Subject),
      s ∈ (update_subject_stats db sid).subjects → s.id = sid →
      s.total_chapters = ((db.chapters.filter (fun c => c.subject_id == sid)).length : Int)
      ∧ s.estimated_read_time =
          ((db.chapters.filter (fun c => c.subject_id == sid)).map
            (fun c => pyOrInt c.estimated_study_time 30)).sum
      ∧ s.interactive_elements_count =
          ((db.chapters.filter (fun c => c.subject_id == sid)).map
            (fun c => pyOrInt c.visualization_count 0 + pyOrInt c.exercise_count 0)).sum)
    ∧ (∀ (db : DB) (sid : Nat), (update_subject_stats db sid).chapters = db.chapters)
    ∧ (∀ (db : DB) (cid : Nat) (c : Course),
      c ∈ (update_course_stats db cid).courses → c.id = cid →
      c.total_subjects = ((db.subjects.filter (fun s => s.course_id == some cid)).length : Int)
      ∧ c.total_chapters =
          ((db.subjects.filter (fun s => s.course_id == some cid)).map
            (fun s => s.total_chapters)).sum
      ∧ c.estimated_study_hours =
          Int.fdiv (((db.subjects.filter (fun s => s.course_id == some cid)).map
            (fun s => s.estimated_read_time)).sum) 60)
    ∧ (∀ (db : DB) (cid : Nat), (update_course_stats db cid).subjects = db.subjects)
    ∧ ((update_subject_stats exRollupDB 1).subjects.map
        (fun s => (s.total_chapters, s.estimated_read_time, s.interactive_elements_count)))
        = [(3, 90, 3)]
    ∧ ((update_subject_stats exRollupDB 1).courses.map
        (fun c => (c.total_subjects, c.total_chapters, c.estimated_study_hours)))
        = [(1, 3, 1)] :=
  ⟨mem_update_subject_stats_spec, update_subject_stats_chapters,
   mem_update_course_stats_spec, update_course_stats_subjects,
   by decide, by decide⟩

/-- Witness for C1 at the spec's 20/30/40 example database. -/
theorem rollup_stats_invariant_witness :
    (update_subject_stats exRollupDB 1).subjects.headI.estimated_read_time = 90
    ∧ (update_subject_stats exRollupDB 1).subjects.headI.interactive_elements_count = 3 := by
  have hmem : (update_subject_stats exRollupDB 1).subjects.headI
      ∈ (update_subject_stats exRollupDB 1).subjects := by decide
  have hid : (update_subject_stats exRollupDB 1).subjects.headI.id = 1 := by decide
  have h := rollup_stats_invariant.1 exRollupDB 1 _ hmem hid
  exact ⟨h.2.1.trans (by decide), h.2.2.trans (by decide)⟩

/-- A subject whose only chapter stores `estimated_study_time = 0`: the
value is present, not missing. -/
def zeroEstimateDB : DB :=
  { courses := [],
    subjects := [{ id := 1, name := "Sample Book", course_id := none,
                   total_chapters := 0, estimated_read_time := 0,
                   interactive_elements_count := 0, created_at := 0 }],
    chapters := [{ id := 1, subject_id := 1, title := "Ch1", chapter_number := none,
                   estimated_study_time := some 0, total_content_blocks := none,
                   concept_count := none, visualization_count := none,
                   exercise_count := none, case_study_count := none,
                   content_blocks := none }] }

/-- Counterexample to C1 as stated: with a stored `estimated_study_time` of
0 the code substitutes 30 (Python `or` treats 0 as falsy), so the rollup is
30 while the claimed aggregate — 30 substituted only when the value is
missing — is 0. -/
theorem rollup_missing_default_counterexample :
    ((update_subject_stats zeroEstimateDB 1).subjects.map
      (fun s => s.estimated_read_time)) = [30]
    ∧ ((zeroEstimateDB.chapters.filter (fun c => c.subject_id == 1)).map
        (fun c => c.estimated_study_time.getD 30)).sum = 0
    ∧ ¬ (∀ s ∈ (update_subject_stats zeroEstimateDB 1).subjects, s.id = 1 →
          s.estimated_read_time =
            ((zeroEstimateDB.chapters.filter (fun c => c.subject_id == 1)).map
              (fun c => c.estimated_study_time.getD 30)).sum) := by decide

/-- A chapter with non-zero derived counts whose `content_blocks` text is
not valid JSON. -/
def malformedBlocksDB : DB :=
  { courses := [], subjects := [],
    chapters := [{ id := 1, subject_id := 1, title := "Ch1", chapter_number := some 1,
                   estimated_study_time := some 30, total_content_blocks := some 2,
                   concept_count := some 5, visualization_count := some 1,
                   exercise_count := some 1, case_study_count := some 0,
                   content_blocks := some (BlocksText.malformed "not json") }] }

/-- C7 (amended): for a chapter whose `content_blocks` text is not valid
JSON, `update_chapter_stats` does not raise — the decode error is swallowed
— and leaves the whole state unchanged: every derived count keeps its prior
value (it is not reset to 0) and no cascade to subject or course stats
fires. -/
theorem update_chapter_stats_malformed_noop :
    ∀ (db : DB) (chid : Nat) (ch : Chapter) (s : String),
      db.chapters.find? (fun c => c.id == chid) = some ch →
      ch.content_blocks = some (BlocksText.malformed s) →
      update_chapter_stats db chid = db := by
  intro db chid ch s hfind hcb
  unfold update_chapter_stats
  rw [hfind]
  dsimp only
  rw [hcb]

/-- Witness for C7 (amended) at `malformedBlocksDB`. -/
theorem update_chapter_stats_malformed_noop_witness :
    update_chapter_stats malformedBlocksDB 1 = malformedBlocksDB :=
  update_chapter_stats_malformed_noop malformedBlocksDB 1
    malformedBlocksDB.chapters.headI "not json" (by decide) (by decide)

/-- Counterexample to C7 as stated: after `update_chapter_stats` on a
malformed-JSON chapter the derived counts keep their prior non-zero values;
they do not end up as for an empty structure (all 0). -/
theorem update_chapter_stats_malformed_counterexample :
    ((update_chapter_stats malformedBlocksDB 1).chapters.map (fun c => c.concept_count))
      = [some 5]
    ∧ ¬ (∀ ch ∈ (update_chapter_stats malformedBlocksDB 1).chapters,
        ch.total_content_blocks = some 0 ∧ ch.concept_count = some 0
        ∧ ch.visualization_count = some 0 ∧ ch.exercise_count = some 0
        ∧ ch.case_study_count = some 0) := by decide

/-- C10: for a chapter whose `content_blocks` is `None` or the empty string
(both falsy), `update_chapter_stats` leaves every field of every row
unchanged — no count is reset to 0 and no cascade to subject or course
stats fires. -/
theorem update_chapter_stats_falsy_noop :
    ∀ (db : DB) (chid : Nat) (ch : Chapter),
      db.chapters.find? (fun c => c.id == chid) = some ch →
      (ch.content_blocks = none ∨ ch.content_blocks = some BlocksText.emptyStr) →
      update_chapter_stats db chid = db := by
  intro db chid ch hfind hcb
  unfold update_chapter_stats
  rw [hfind]
  dsimp only
  rcases hcb with h | h <;> rw [h]

/-- A chapter with non-zero derived counts and a `None` `content_blocks`. -/
def nullBlocksDB : DB :=
  { courses := [], subjects := [],
    chapters := [{ id := 1, subject_id := 1, title := "Ch1", chapter_number := some 1,
                   estimated_study_time := some 30, total_content_blocks := some 3,
                   concept_count := some 2, visualization_count := some 1,
                   exercise_count := some 0, case_study_count := some 0,
                   content_blocks := none }] }

/-- Witness for C10 at `nullBlocksDB`. -/
theorem update_chapter_stats_falsy_noop_witness :
    update_chapter_stats nullBlocksDB 1 = nullBlocksDB :=
  update_chapter_stats_falsy_noop nullBlocksDB 1
    nullBlocksDB.chapters.headI (by decide) (Or.inl (by decide))

/-! ## Claims C2 and C3: quiz grading (`submit_quiz` in `app.py`)

The grading loop of `submit_quiz` is embedded as a pure function over the
list of questions paired, in order, with the submitted answer index parsed
from the form field for that position (`None` when the field is absent).
The per-concept accumulator dict is an association list updated with dict
semantics (update in place, insert at the end). -/

/-- `user_answer is not None and int(user_answer) == correct_answer`: a
comparison with a missing `correct_answer_index` is `False`, never an
error. -/
def isCorrectAnswer (user_answer : Option Int) (correct_answer : Option Int) : Bool :=
  match user_answer, correct_answer with
  | some v, some w => v == w
  | _, _ => false

/-- The two keys of a quiz-question JSON object read by the grader
(`correct_answer_index`, `concept_tested`), each possibly absent. -/
structure QuizQuestion where
  correct_answer_index : Option Int
  concept_tested : Option String
  deriving DecidableEq, Repr, Inhabited

/-- `question.get('concept_tested', 'general')`. -/
def conceptOf (q : QuizQuestion) : String := q.concept_tested.getD "general"

/-- One `concept_performance` dict update: ensure the key exists, increment
its total, and increment its correct count when the answer was right. -/
def bumpConcept : List (String × Nat × Nat) → String → Bool → List (String × Nat × Nat)
  | [], c, ok => [(c, (if ok then 1 else 0), 1)]
  | p :: rest, c, ok =>
    if p.1 = c then (p.1, p.2.1 + (if ok then 1 else 0), p.2.2 + 1) :: rest
    else p :: bumpConcept rest c ok

/-- One iteration of the grading loop: bump the score when correct and
update the per-concept performance dict. -/
def gradeStep (acc : Nat × List (String × Nat × Nat)) (p : QuizQuestion × Option Int) :
    Nat × List (String × Nat × Nat) :=
  let ok := isCorrectAnswer p.2 p.1.correct_answer_index
  ((if ok then acc.1 + 1 else acc.1), bumpConcept acc.2 (conceptOf p.1) ok)

/-- The grading outputs of `submit_quiz`. -/
structure QuizGrade where
  score : Nat
  total : Nat
  percentage : ℚ
  concept_performance : List (String × Nat × Nat)
  weak_concepts : List String
  deriving DecidableEq, Repr

/-- The grading computation of `submit_quiz` (`app.py`): score, total,
percentage (`score/total*100`, 0 when no questions), per-concept
correct/total counts, and the weak concepts (ratio below 0.7). -/
def submit_quiz_grade (qa : List (QuizQuestion × Option Int)) : QuizGrade :=
  let res := qa.foldl gradeStep (0, [])
  { score := res.1,
    total := qa.length,
    percentage := if qa.length > 0 then (res.1 : ℚ) / qa.length * 100 else 0,
    concept_performance := res.2,
    weak_concepts :=
      (res.2.filter (fun p => (p.2.1 : ℚ) / (p.2.2 : ℚ) < 7/10)).map (fun p => p.1) }

/-- Specification count: how many questions test concept `c`. -/
def conceptTotal (qa : List (QuizQuestion × Option Int)) (c : String) : Nat :=
  qa.countP (fun p => decide (conceptOf p.1 = c))

/-- Specification count: how many questions testing concept `c` were
answered correctly. -/
def conceptCorrect (qa : List (QuizQuestion × Option Int)) (c : String) : Nat :=
  qa.countP (fun p => decide (conceptOf p.1 = c) && isCorrectAnswer p.2 p.1.correct_answer_index)

/-- Lookup of a concept's (correct, total) pair in the accumulated
performance association list. -/
def lookupPerf : List (String × Nat × Nat) → String → Option (Nat × Nat)
  | [], _ => none
  | p :: rest, c => if p.1 = c then some p.2 else lookupPerf rest c

/-- Adds counts accumulated over a suffix of the question list onto an
already-present performance entry. -/
def combinePerf : Option (Nat × Nat) → Nat → Nat → Option (Nat × Nat)
  | some (a, b), cc, ct => some (a + cc, b + ct)
  | none, cc, ct => if ct = 0 then none else some (cc, ct)

/-- Helper: effect of one dict update on a key lookup. -/
theorem bump_lookup (c d : String) (ok : Bool) :
    ∀ (perf : List (String × Nat × Nat)),
    lookupPerf (bumpConcept perf d ok) c =
      if c = d then
        (match lookupPerf perf d with
          | some (a, b) => some (a + (if ok then 1 else 0), b + 1)
          | none => some ((if ok then 1 else 0), 1))
      else lookupPerf perf c := by
  intro perf
  induction perf with
  | nil =>
    by_cases h : c = d
    · simp [bumpConcept, lookupPerf, h]
    · simp [bumpConcept, lookupPerf, h, (show ¬ d = c from fun hh => h hh.symm)]
  | cons p rest ih =>
    by_cases hpd : p.1 = d
    · by_cases hcd : c = d
      · simp [bumpConcept, lookupPerf, hpd, hcd]
      · have hpc : ¬ p.1 = c := fun hh => hcd (hh.symm.trans hpd)
        have hdc : ¬ d = c := fun hh => hcd hh.symm
        simp [bumpConcept, lookupPerf, hpd, hcd, hpc, hdc]
    · by_cases hcd : c = d
      · have hpc : ¬ p.1 = c := fun hh => hpd (hh.trans hcd)
        simp only [bumpConcept, if_neg hpd, lookupPerf, if_neg hpc, ih, if_pos hcd]
      · by_cases hpc : p.1 = c
        · simp [bumpConcept, lookupPerf, hpd, hcd, hpc]
        · simp only [bumpConcept, if_neg hpd, lookupPerf, if_neg hpc, ih, if_neg hcd]

/-- Helper: the grading fold counts exactly the correctly-answered
questions. -/
theorem foldl_score (qa : List (QuizQuestion × Option Int)) :
    ∀ (acc : Nat × List (String × Nat × Nat)),
      (qa.foldl gradeStep acc).1 =
        acc.1 + qa.countP (fun p => isCorrectAnswer p.2 p.1.correct_answer_index) := by
  induction qa with
  | nil => intro acc; simp
  | cons p rest ih =>
    intro acc
    rw [List.foldl_cons, ih]
    by_cases h : isCorrectAnswer p.2 p.1.correct_answer_index
    · simp [gradeStep, h, List.countP_cons, Nat.add_comm, Nat.add_assoc, Nat.add_left_comm]
    · simp [gradeStep, h, List.countP_cons]

/-- Helper: the grading fold accumulates per-concept correct/total counts. -/
theorem foldl_lookup (qa : List (QuizQuestion × Option Int)) :
    ∀ (acc : Nat × List (String × Nat × Nat)) (c : String),
      lookupPerf (qa.foldl gradeStep acc).2 c =
        combinePerf (lookupPerf acc.2 c) (conceptCorrect qa c) (conceptTotal qa c) := by
  induction qa with
  | nil =>
    intro acc c
    cases h : lookupPerf acc.2 c with
    | none => simp [combinePerf, conceptCorrect, conceptTotal, h]
    | some ab => cases ab; simp [combinePerf, conceptCorrect, conceptTotal, h]
  | cons p rest ih =>
    intro acc c
    rw [List.foldl_cons, ih]
    have h2 : (gradeStep acc p).2 =
        bumpConcept acc.2 (conceptOf p.1) (isCorrectAnswer p.2 p.1.correct_answer_index) := rfl
    rw [h2, bump_lookup]
    by_cases hcd : c = conceptOf p.1
    · rw [if_pos hcd]
      have ht : conceptTotal (p :: rest) c = 1 + conceptTotal rest c := by
        simp [conceptTotal, List.countP_cons, hcd.symm, Nat.add_comm]
      by_cases hok : isCorrectAnswer p.2 p.1.correct_answer_index = true
      · have hc : conceptCorrect (p :: rest) c = 1 + conceptCorrect rest c := by
          simp [conceptCorrect, List.countP_cons, hcd.symm, hok, Nat.add_comm]
        rw [ht, hc, hcd]
        cases h : lookupPerf acc.2 (conceptOf p.1) with
        | none =>
          simp [combinePerf, h, hok, Nat.add_comm, Nat.add_assoc, Nat.add_left_comm]
        | some ab =>
          cases ab
          simp [combinePerf, h, hok, Nat.add_comm, Nat.add_assoc, Nat.add_left_comm]
      · have hc : conceptCorrect (p :: rest) c = conceptCorrect rest c := by
          simp [conceptCorrect, List.countP_cons, hok]
        rw [ht, hc, hcd]
        cases h : lookupPerf acc.2 (conceptOf p.1) with
        | none =>
          simp [combinePerf, h, hok, Nat.add_comm, Nat.add_assoc, Nat.add_left_comm]
        | some ab =>
          cases ab
          simp [combinePerf, h, hok, Nat.add_comm, Nat.add_assoc, Nat.add_left_comm]
    · rw [if_neg hcd]
      have hne : ¬ conceptOf p.1 = c := fun hh => hcd hh.symm
      have ht : conceptTotal (p :: rest) c = conceptTotal rest c := by
        simp [conceptTotal, List.countP_cons, hne]
      have hc : conceptCorrect (p :: rest) c = conceptCorrect rest c := by
        simp [conceptCorrect, List.countP_cons, hne]
      rw [ht, hc]

/-- Helper: a dict update introduces no key other than the updated one. -/
theorem mem_keys_bump (c : String) (ok : Bool) :
    ∀ (perf : List (String × Nat × Nat)) (x : String),
      x ∈ (bumpConcept perf c ok).map (fun p => p.1) →
      x ∈ perf.map (fun p => p.1) ∨ x = c := by
  intro perf
  induction perf with
  | nil => intro x hx; simp [bumpConcept] at hx; exact Or.inr hx
  | cons p rest ih =>
    intro x hx
    by_cases hpc : p.1 = c
    · rw [bumpConcept, if_pos hpc] at hx
      simp only [List.map_cons, List.mem_cons] at hx ⊢
      tauto
    · rw [bumpConcept, if_neg hpc] at hx
      simp only [List.map_cons, List.mem_cons] at hx ⊢
      rcases hx with h | h
      · exact Or.inl (Or.inl h)
      · rcases ih x h with h2 | h2
        · exact Or.inl (Or.inr h2)
        · exact Or.inr h2

/-- Helper: a dict update keeps keys distinct. -/
theorem nodup_keys_bump (c : String) (ok : Bool) :
    ∀ (perf : List (String × Nat × Nat)),
      (perf.map (fun p => p.1)).Nodup →
      ((bumpConcept perf c ok).map (fun p => p.1)).Nodup := by
  intro perf
  induction perf with
  | nil => intro _; simp [bumpConcept]
  | cons p rest ih =>
    intro hnd
    simp only [List.map_cons, List.nodup_cons] at hnd
    by_cases hpc : p.1 = c
    · rw [bumpConcept, if_pos hpc]
      simp only [List.map_cons, List.nodup_cons]
      exact hnd
    · rw [bumpConcept, if_neg hpc]
      simp only [List.map_cons, List.nodup_cons]
      refine ⟨fun hmem => ?_, ih hnd.2⟩
      rcases mem_keys_bump c ok rest p.1 hmem with h | h
      · exact hnd.1 h
      · exact hpc h

/-- Helper: the accumulated performance list has distinct keys. -/
theorem nodup_keys_fold (qa : List (QuizQuestion × Option Int)) :
    ∀ (acc : Nat × List (String × Nat × Nat)),
      (acc.2.map (fun p => p.1)).Nodup →
      (((qa.foldl gradeStep acc).2).map (fun p => p.1)).Nodup := by
  induction qa with
  | nil => intro acc h; exact h
  | cons p rest ih =>
    intro acc h
    rw [List.foldl_cons]
    exact ih _ (nodup_keys_bump _ _ _ h)

/-- Helper: with distinct keys, lookup finds exactly the stored entry. -/
theorem lookupPerf_of_mem :
    ∀ (perf : List (String × Nat × Nat)),
      (perf.map (fun p => p.1)).Nodup →
      ∀ p ∈ perf, lookupPerf perf p.1 = some p.2 := by
  intro perf
  induction perf with
  | nil => intro _ p hp; simp at hp
  | cons q rest ih =>
    intro hnd p hp
    simp only [List.map_cons, List.nodup_cons] at hnd
    rcases List.mem_cons.mp hp with rfl | hmem
    · simp [lookupPerf]
    · by_cases hq : q.1 = p.1
      · exact absurd (hq ▸ List.mem_map_of_mem (fun r => r.1) hmem) hnd.1
      · rw [lookupPerf, if_neg hq]
        exact ih hnd.2 p hmem

/-- Helper: a successful lookup exhibits a stored entry. -/
theorem mem_of_lookupPerf :
    ∀ (perf : List (String × Nat × Nat)) (c : String) (a b : Nat),
      lookupPerf perf c = some (a, b) → (c, a, b) ∈ perf := by
  intro perf
  induction perf with
  | nil => intro c a b h; simp [lookupPerf] at h
  | cons q rest ih =>
    intro c a b h
    by_cases hq : q.1 = c
    · rw [lookupPerf, if_pos hq] at h
      have : q = (c, a, b) := by
        rcases q with ⟨q1, q2⟩
        simp only [Option.some_inj] at h
        simp only at hq
        rw [hq, h]
      exact this ▸ List.mem_cons_self q rest
    · rw [lookupPerf, if_neg hq] at h
      exact List.mem_cons_of_mem q (ih c a b h)

/-- Helper: membership in `weak_concepts` is exactly a stored performance
entry whose correct/total ratio is below 0.7. -/
theorem weak_concepts_iff (qa : List (QuizQuestion × Option Int)) (c : String) :
    c ∈ (submit_quiz_grade qa).weak_concepts ↔
      (∃ a b, lookupPerf (submit_quiz_grade qa).concept_performance c = some (a, b)
        ∧ (a : ℚ) / (b : ℚ) < 7/10) := by
  have hnd : (((qa.foldl gradeStep (0, [])).2).map (fun p => p.1)).Nodup :=
    nodup_keys_fold qa (0, []) (by simp)
  constructor
  · intro hc
    simp only [submit_quiz_grade, List.mem_map] at hc
    rcases hc with ⟨p, hp, rfl⟩
    have hpmem := List.mem_of_mem_filter hp
    have hpred := List.of_mem_filter hp
    refine ⟨p.2.1, p.2.2, ?_, by simpa using hpred⟩
    simpa [submit_quiz_grade] using lookupPerf_of_mem _ hnd p hpmem
  · rintro ⟨a, b, hl, hr⟩
    have hmem : (c, a, b) ∈ (qa.foldl gradeStep (0, [])).2 :=
      mem_of_lookupPerf _ c a b (by simpa [submit_quiz_grade] using hl)
    simp only [submit_quiz_grade, List.mem_map]
    refine ⟨(c, a, b), List.mem_filter.mpr ⟨hmem, by simpa using hr⟩, rfl⟩

/-- The grading example of the spec: `correct_answer_index` = [1,2,0,3],
submitted = [1,2,1,3], each question testing its own concept. -/
def exQuizQA : List (QuizQuestion × Option Int) :=
  [({ correct_answer_index := some 1, concept_tested := some "c1" }, some 1),
   ({ correct_answer_index := some 2, concept_tested := some "c2" }, some 2),
   ({ correct_answer_index := some 0, concept_tested := some "c3" }, some 1),
   ({ correct_answer_index := some 3, concept_tested := some "c4" }, some 3)]

/-- C2: quiz grading computes score = number of questions whose submitted
index equals `correct_answer_index`, percentage = score/total*100 (0 when
total is 0), accumulates per-concept correct/total counts, and lists a
concept as weak exactly when its ratio is below 0.7; on the spec's
4-question example the score is 3, total 4, percentage 75.0, and the
concept of question 3 has counts 0/1 and is weak. -/
theorem submit_quiz_grading_spec :
    (∀ (qa : List (QuizQuestion × Option Int)),
      (submit_quiz_grade qa).score =
        qa.countP (fun p => isCorrectAnswer p.2 p.1.correct_answer_index)
      ∧ (submit_quiz_grade qa).total = qa.length
      ∧ (submit_quiz_grade qa).percentage =
          (if (submit_quiz_grade qa).total > 0 then
            ((submit_quiz_grade qa).score : ℚ) / ((submit_quiz_grade qa).total : ℚ) * 100
           else 0)
      ∧ (∀ c, lookupPerf (submit_quiz_grade qa).concept_performance c =
          (if conceptTotal qa c = 0 then none
           else some (conceptCorrect qa c, conceptTotal qa c)))
      ∧ (∀ c, c ∈ (submit_quiz_grade qa).weak_concepts ↔
          (conceptTotal qa c ≠ 0 ∧
            (conceptCorrect qa c : ℚ) / (conceptTotal qa c : ℚ) < 7/10)))
    ∧ (submit_quiz_grade exQuizQA).score = 3
    ∧ (submit_quiz_grade exQuizQA).total = 4
    ∧ (submit_quiz_grade exQuizQA).percentage = 75
    ∧ lookupPerf (submit_quiz_grade exQuizQA).concept_performance "c3" = some (0, 1)
    ∧ "c3" ∈ (submit_quiz_grade exQuizQA).weak_concepts := by
  have hmain : ∀ (qa : List (QuizQuestion × Option Int)),
      (submit_quiz_grade qa).score =
        qa.countP (fun p => isCorrectAnswer p.2 p.1.correct_answer_index)
      ∧ (submit_quiz_grade qa).total = qa.length
      ∧ (submit_quiz_grade qa).percentage =
          (if (submit_quiz_grade qa).total > 0 then
            ((submit_quiz_grade qa).score : ℚ) / ((submit_quiz_grade qa).total : ℚ) * 100
           else 0)
      ∧ (∀ c, lookupPerf (submit_quiz_grade qa).concept_performance c =
          (if conceptTotal qa c = 0 then none
           else some (conceptCorrect qa c, conceptTotal qa c)))
      ∧ (∀ c, c ∈ (submit_quiz_grade qa).weak_concepts ↔
          (conceptTotal qa c ≠ 0 ∧
            (conceptCorrect qa c : ℚ) / (conceptTotal qa c : ℚ) < 7/10)) := by
    intro qa
    have hscore : (submit_quiz_grade qa).score =
        qa.countP (fun p => isCorrectAnswer p.2 p.1.correct_answer_index) := by
      show (qa.foldl gradeStep (0, [])).1 = _
      rw [foldl_score]
      simp
    have hlook : ∀ c, lookupPerf (submit_quiz_grade qa).concept_performance c =
        (if conceptTotal qa c = 0 then none
         else some (conceptCorrect qa c, conceptTotal qa c)) := by
      intro c
      show lookupPerf (qa.foldl gradeStep (0, [])).2 c = _
      rw [foldl_lookup]
      simp [lookupPerf, combinePerf]
    refine ⟨hscore, rfl, by simp [submit_quiz_grade], hlook, fun c => ?_⟩
    rw [weak_concepts_iff]
    constructor
    · rintro ⟨a, b, hl, hr⟩
      rw [hlook c] at hl
      by_cases h0 : conceptTotal qa c = 0
      · simp [h0] at hl
      · rw [if_neg h0] at hl
        rcases Option.some_inj.mp hl with h2
        have ha : conceptCorrect qa c = a := (Prod.mk.injEq _ _ _ _ ▸ h2).1
        have hb : conceptTotal qa c = b := (Prod.mk.injEq _ _ _ _ ▸ h2).2
        exact ⟨h0, ha ▸ hb ▸ hr⟩
    · rintro ⟨h0, hr⟩
      exact ⟨conceptCorrect qa c, conceptTotal qa c, by rw [hlook c]; simp [h0], hr⟩
  have hsc : (submit_quiz_grade exQuizQA).score = 3 := by decide
  have hto : (submit_quiz_grade exQuizQA).total = 4 := by decide
  have hpct : (submit_quiz_grade exQuizQA).percentage = 75 := by
    rw [(hmain exQuizQA).2.2.1, hsc, hto]
    norm_num
  have hweak : "c3" ∈ (submit_quiz_grade exQuizQA).weak_concepts := by
    refine ((hmain exQuizQA).2.2.2.2 "c3").mpr ⟨by decide, ?_⟩
    have h1 : conceptCorrect exQuizQA "c3" = 0 := by decide
    have h2 : conceptTotal exQuizQA "c3" = 1 := by decide
    rw [h1, h2]
    norm_num
  exact ⟨hmain, hsc, hto, hpct, by decide, hweak⟩

/-- Witness for C2: the weak-concept characterisation applied to the
example quiz. -/
theorem submit_quiz_grading_spec_witness :
    "c3" ∈ (submit_quiz_grade exQuizQA).weak_concepts := by
  refine ((submit_quiz_grading_spec.1 exQuizQA).2.2.2.2 "c3").mpr ⟨by decide, ?_⟩
  have h1 : conceptCorrect exQuizQA "c3" = 0 := by decide
  have h2 : conceptTotal exQuizQA "c3" = 1 := by decide
  rw [h1, h2]
  norm_num

/-- The progress-row fields written by the quiz-submission update block. -/
structure UserProgressQuiz where
  quizzes_taken : Int
  avg_quiz_score : ℚ
  mastery_level : String
  deriving DecidableEq, Repr

/-- The progress-update block of `submit_quiz` (`app.py`): increments
`quizzes_taken`, folds the new percentage into `avg_quiz_score` (the new
percentage itself when the stored average is 0, else the two-point
average), and re-derives the four-tier mastery label.  The struggle-areas
JSON merge touches no field modelled here. -/
def update_progress_after_quiz (p : UserProgressQuiz) (percentage : ℚ) : UserProgressQuiz :=
  let avg := if p.avg_quiz_score = 0 then percentage
             else (p.avg_quiz_score + percentage) / 2
  { quizzes_taken := p.quizzes_taken + 1,
    avg_quiz_score := avg,
    mastery_level :=
      if avg ≥ 90 then "expert"
      else if avg ≥ 80 then "proficient"
      else if avg ≥ 70 then "developing"
      else "novice" }

/-- C3 (amended): when the existing row's `avg_quiz_score` is non-zero,
a quiz submission updates it to the simple two-point average of the
previous average and the new percentage (and increments `quizzes_taken`);
prior average 80 with new percentage 60 yields 70. -/
theorem avg_quiz_two_point_average :
    (∀ (p : UserProgressQuiz) (percentage : ℚ), p.avg_quiz_score ≠ 0 →
      (update_progress_after_quiz p percentage).avg_quiz_score =
        (p.avg_quiz_score + percentage) / 2
      ∧ (update_progress_after_quiz p percentage).quizzes_taken = p.quizzes_taken + 1)
    ∧ (update_progress_after_quiz
        { quizzes_taken := 1, avg_quiz_score := 80, mastery_level := "proficient" }
        60).avg_quiz_score = 70 := by
  constructor
  · intro p pct h
    exact ⟨by simp [update_progress_after_quiz, h], rfl⟩
  · norm_num [update_progress_after_quiz]

/-- Witness for C3 at the spec's 80/60 example. -/
theorem avg_quiz_two_point_average_witness :
    (update_progress_after_quiz
      { quizzes_taken := 1, avg_quiz_score := 80, mastery_level := "proficient" }
      60).avg_quiz_score = (80 + 60) / 2 :=
  (avg_quiz_two_point_average.1
    { quizzes_taken := 1, avg_quiz_score := 80, mastery_level := "proficient" }
    60 (by norm_num)).1

/-- Counterexample to C3 as stated: when the stored average is 0 the code
sets the average to the new percentage (60), not to the two-point average
(0 + 60)/2 = 30, so the update is not always the two-point average. -/
theorem avg_quiz_two_point_counterexample :
    (update_progress_after_quiz
      { quizzes_taken := 0, avg_quiz_score := 0, mastery_level := "novice" }
      60).avg_quiz_score = 60
    ∧ ((0 : ℚ) + 60) / 2 = 30
    ∧ ¬ (∀ (p : UserProgressQuiz) (percentage : ℚ),
        (update_progress_after_quiz p percentage).avg_quiz_score =
          (p.avg_quiz_score + percentage) / 2) := by
  refine ⟨by norm_num [update_progress_after_quiz], by norm_num, fun h => ?_⟩
  have := h { quizzes_taken := 0, avg_quiz_score := 0, mastery_level := "novice" } 60
  norm_num [update_progress_after_quiz] at this

/-! ## Claim C4: `get_user_course_progress` (`models.py`) -/

/-- `CourseEnrollment` row (`models.py`); `enrollment_date` is carried as
its ISO string. -/
structure CourseEnrollment where
  user_id : String
  course_id : Nat
  enrollment_date : String
  overall_progress_percentage : ℚ
  last_activity : Option String
  deriving DecidableEq, Repr, Inhabited

/-- `UserProgress` row (`models.py`): `chapter_id` is `none` for the
subject-level row. -/
structure UserProgress where
  user_id : String
  subject_id : Nat
  chapter_id : Option Nat
  status : String
  time_spent_minutes : Int
  deriving DecidableEq, Repr, Inhabited

/-- `QuizResult` row (`models.py`). -/
structure QuizResult where
  user_id : String
  chapter_id : Nat
  percentage : ℚ
  subject_domain : Option String
  deriving DecidableEq, Repr, Inhabited

/-- The dict returned by `get_user_course_progress`; the two `a/b` display
strings are carried as pairs. -/
structure ProgressSummary where
  course_id : Nat
  enrollment_date : String
  overall_progress : ℚ
  subjects_completed : Nat × Nat
  chapters_completed : Nat × Nat
  total_study_time_hours : ℚ
  average_quiz_score : ℚ
  quizzes_taken : Nat
  last_activity : Option String
  deriving DecidableEq, Repr, Inhabited

/-- `get_user_course_progress` (`models.py`): error when no enrollment row
matches, otherwise completed/total subject and chapter counts (joins
through `Subject.course_id`), total study time and the rounded average
quiz percentage (0 when the user has no quiz rows in the course). -/
def get_user_course_progress (enrollments : List CourseEnrollment)
    (progress : List UserProgress) (subjects : List Subject)
    (chapters : List Chapter) (quiz_results : List QuizResult)
    (user_id : String) (course_id : Nat) : Except String ProgressSummary :=
  match enrollments.find? (fun e => e.user_id == user_id && e.course_id == course_id) with
  | none => .error "User not enrolled in course"
  | some enrollment =>
    let progress_entries := progress.filter (fun p =>
      p.user_id == user_id
      && subjects.any (fun s => s.id == p.subject_id && s.course_id == some course_id))
    let total_subjects := (subjects.filter (fun s => s.course_id == some course_id)).length
    let completed_subjects := ((progress_entries.filter (fun p =>
      p.status == "completed" && p.chapter_id == none)).map (fun p => p.subject_id)).dedup.length
    let total_chapters := (chapters.filter (fun c =>
      subjects.any (fun s => s.id == c.subject_id && s.course_id == some course_id))).length
    let completed_chapters := (progress_entries.filter (fun p =>
      p.status == "completed" && p.chapter_id != none)).length
    let total_time := (progress_entries.map (fun p => p.time_spent_minutes)).sum
    let qrs := quiz_results.filter (fun q =>
      q.user_id == user_id
      && chapters.any (fun c => c.id == q.chapter_id
          && subjects.any (fun s => s.id == c.subject_id && s.course_id == some course_id)))
    let avg_quiz_score : ℚ :=
      if qrs.isEmpty then 0 else (qrs.map (fun q => q.percentage)).sum / (qrs.length : ℚ)
    .ok { course_id := course_id,
          enrollment_date := enrollment.enrollment_date,
          overall_progress := enrollment.overall_progress_percentage,
          subjects_completed := (completed_subjects, total_subjects),
          chapters_completed := (completed_chapters, total_chapters),
          total_study_time_hours := pyRound1 ((total_time : ℚ) / 60),
          average_quiz_score := pyRound1 avg_quiz_score,
          quizzes_taken := qrs.length,
          last_activity := enrollment.last_activity }

/-- Helper: a duplicate-free list contained in another list is no longer
than it. -/
theorem nodup_subset_length {α : Type} [DecidableEq α] (l m : List α)
    (h : l.Nodup) (hs : l ⊆ m) : l.length ≤ m.length := by
  have h1 : l.toFinset.card = l.length := List.toFinset_card_of_nodup h
  have h2 : l.toFinset ⊆ m.toFinset := by
    intro x hx
    simp only [List.mem_toFinset] at hx ⊢
    exact hs hx
  exact h1 ▸ (Finset.card_le_card h2).trans m.toFinset_card_le

/-- Helper: the error result occurs exactly when no enrollment row matches
the (user, course) pair. -/
theorem gucp_error_iff (enrollments : List CourseEnrollment)
    (progress : List UserProgress) (subjects : List Subject)
    (chapters : List Chapter) (quiz_results : List QuizResult)
    (user_id : String) (course_id : Nat) :
    ((∃ msg, get_user_course_progress enrollments progress subjects chapters
        quiz_results user_id course_id = .error msg) ↔
      ¬ ∃ e ∈ enrollments, e.user_id = user_id ∧ e.course_id = course_id) := by
  unfold get_user_course_progress
  cases hfind : enrollments.find?
      (fun e => e.user_id == user_id && e.course_id == course_id) with
  | none =>
    constructor
    · rintro - ⟨e, he, h1, h2⟩
      have := List.find?_eq_none.mp hfind e he
      simp [h1, h2] at this
    · intro _
      exact ⟨"User not enrolled in course", rfl⟩
  | some e =>
    have h1 := List.find?_some hfind
    have h2 := List.mem_of_find?_eq_some hfind
    simp only [Bool.and_eq_true, beq_iff_eq] at h1
    constructor
    · rintro ⟨msg, hmsg⟩
      simp at hmsg
    · intro hno
      exact absurd ⟨e, h2, h1.1, h1.2⟩ hno

/-- Helper: under the schema's uniqueness and foreign-key integrity, the
completed counts never exceed the totals and the average is 0 without quiz
rows. -/
theorem gucp_ok_bounds (enrollments : List CourseEnrollment)
    (progress : List UserProgress) (subjects : List Subject)
    (chapters : List Chapter) (quiz_results : List QuizResult)
    (user_id : String) (course_id : Nat)
    (hch : (chapters.map (fun c => c.id)).Nodup)
    (hpn : (progress.map (fun p => (p.user_id, p.subject_id, p.chapter_id))).Nodup)
    (hfk : ∀ p ∈ progress, ∀ k, p.chapter_id = some k →
        ∃ c ∈ chapters, c.id = k ∧ c.subject_id = p.subject_id)
    (s : ProgressSummary)
    (hok : get_user_course_progress enrollments progress subjects chapters
        quiz_results user_id course_id = .ok s) :
    s.subjects_completed.1 ≤ s.subjects_completed.2
    ∧ s.chapters_completed.1 ≤ s.chapters_completed.2
    ∧ ((¬ ∃ q ∈ quiz_results, q.user_id = user_id ∧ ∃ c ∈ chapters,
          c.id = q.chapter_id ∧ ∃ t ∈ subjects, t.id = c.subject_id
            ∧ t.course_id = some course_id) →
        s.average_quiz_score = 0) := by
  unfold get_user_course_progress at hok
  cases hfind : enrollments.find?
      (fun e => e.user_id == user_id && e.course_id == course_id) with
  | none => rw [hfind] at hok; exact absurd hok (by simp)
  | some e =>
    rw [hfind] at hok
    dsimp only at hok
    rw [Except.ok.injEq] at hok
    subst hok
    refine ⟨?_, ?_, ?_⟩
    · -- completed subjects ≤ total subjects
      have hsub : ∀ x ∈ (((progress.filter (fun p =>
          p.user_id == user_id
          && subjects.any (fun t => t.id == p.subject_id && t.course_id == some course_id))).filter
            (fun p => p.status == "completed" && p.chapter_id == none)).map
            (fun p => p.subject_id)).dedup,
          x ∈ (subjects.filter (fun t => t.course_id == some course_id)).map (fun t => t.id) := by
        intro x hx
        rw [List.mem_dedup] at hx
        rcases List.mem_map.mp hx with ⟨p, hp, rfl⟩
        have hp1 := (List.mem_filter.mp hp).1
        have hp2 := List.mem_filter.mp hp1
        simp only [Bool.and_eq_true, beq_iff_eq, List.any_eq_true] at hp2
        rcases hp2.2.2 with ⟨t, ht, ht2⟩
        exact List.mem_map.mpr ⟨t, List.mem_filter.mpr ⟨ht, by simp [ht2.2]⟩, ht2.1⟩
      have := nodup_subset_length _ _ (List.nodup_dedup _) hsub
      simpa using this
    · -- completed chapters ≤ total chapters
      have hPsub : ((progress.filter (fun p =>
          p.user_id == user_id
          && subjects.any (fun t => t.id == p.subject_id && t.course_id == some course_id))).filter
            (fun p => p.status == "completed" && p.chapter_id != none)).Sublist progress :=
        (List.filter_sublist _).trans (List.filter_sublist _)
      set P := ((progress.filter (fun p =>
          p.user_id == user_id
          && subjects.any (fun t => t.id == p.subject_id && t.course_id == some course_id))).filter
            (fun p => p.status == "completed" && p.chapter_id != none)) with hPdef
      have hProgNodup : progress.Nodup := List.Nodup.of_map _ hpn
      have hPnodup : P.Nodup := hPsub.nodup hProgNodup
      have hPfacts : ∀ p ∈ P, p.user_id = user_id ∧ p.chapter_id ≠ none
          ∧ ∃ t ∈ subjects, t.id = p.subject_id ∧ t.course_id = some course_id := by
        intro p hp
        have h2 := List.mem_filter.mp hp
        have h1 := List.mem_filter.mp h2.1
        simp only [Bool.and_eq_true, beq_iff_eq, List.any_eq_true, bne_iff_ne, ne_eq] at h1 h2
        rcases h1.2.2 with ⟨t, ht, ht2⟩
        exact ⟨h1.2.1, h2.2.2, t, ht, ht2.1, ht2.2⟩
      have hinj : ∀ x ∈ P, ∀ y ∈ P, x.chapter_id = y.chapter_id → x = y := by
        intro x hx y hy hxy
        rcases hPfacts x hx with ⟨hxu, hxc, -⟩
        rcases hPfacts y hy with ⟨hyu, -, -⟩
        rcases Option.ne_none_iff_exists'.mp hxc with ⟨k, hk⟩
        have hky : y.chapter_id = some k := hxy ▸ hk
        rcases hfk x (hPsub.subset hx) k hk with ⟨cx, hcx, hcxid, hcxsub⟩
        rcases hfk y (hPsub.subset hy) k hky with ⟨cy, hcy, hcyid, hcysub⟩
        have hcc : cx = cy :=
          List.inj_on_of_nodup_map hch hcx hcy (by rw [hcxid, hcyid])
        have hsubeq : x.subject_id = y.subject_id := by
          rw [← hcxsub, hcc, hcysub]
        exact List.inj_on_of_nodup_map hpn (hPsub.subset hx) (hPsub.subset hy)
          (by rw [hxu, hyu, hsubeq, hxy])
      have hmapnodup : (P.map (fun p => p.chapter_id)).Nodup :=
        List.Nodup.map_on hinj hPnodup
      have hmapsub : ∀ z ∈ P.map (fun p => p.chapter_id),
          z ∈ (chapters.filter (fun c =>
            subjects.any (fun t => t.id == c.subject_id && t.course_id == some course_id))).map
            (fun c => (some c.id : Option Nat)) := by
        intro z hz
        rcases List.mem_map.mp hz with ⟨p, hp, rfl⟩
        rcases hPfacts p hp with ⟨-, hpc, t, ht, htid, htc⟩
        rcases Option.ne_none_iff_exists'.mp hpc with ⟨k, hk⟩
        rcases hfk p (hPsub.subset hp) k hk with ⟨c, hc, hcid, hcsub⟩
        refine List.mem_map.mpr ⟨c, List.mem_filter.mpr ⟨hc, ?_⟩, by rw [hk, hcid]⟩
        simp only [List.any_eq_true, Bool.and_eq_true, beq_iff_eq]
        exact ⟨t, ht, by rw [htid, hcsub], htc⟩
      calc P.length = (P.map (fun p => p.chapter_id)).length := by rw [List.length_map]
        _ ≤ ((chapters.filter (fun c =>
            subjects.any (fun t => t.id == c.subject_id && t.course_id == some course_id))).map
            (fun c => (some c.id : Option Nat))).length :=
          nodup_subset_length _ _ hmapnodup hmapsub
        _ = (chapters.filter (fun c =>
            subjects.any (fun t => t.id == c.subject_id && t.course_id == some course_id))).length := by
          rw [List.length_map]
    · -- avg is 0 when no quiz rows in the course
      intro hq
      have hfil : quiz_results.filter (fun q =>
          q.user_id == user_id
          && chapters.any (fun c => c.id == q.chapter_id
              && subjects.any (fun t => t.id == c.subject_id && t.course_id == some course_id))) = [] := by
        rw [List.filter_eq_nil_iff]
        intro q hqmem
        intro hcond
        apply hq
        simp only [Bool.and_eq_true, beq_iff_eq, List.any_eq_true] at hcond
        rcases hcond.2 with ⟨c, hc, hc2⟩
        rcases hc2.2 with ⟨t, ht, ht2⟩
        exact ⟨q, hqmem, hcond.1, c, hc, hc2.1, t, ht, ht2.1, ht2.2⟩
      rw [hfil]
      norm_num [pyRound1, roundHalfEven]

/-- C4: `get_user_course_progress` returns an error object iff no
enrollment exists for the (user, course) pair; when enrolled — assuming
the schema's unique chapter ids, the unique constraint on
(user_id, subject_id, chapter_id) and foreign-key integrity of chapter
references — the completed-subjects count never exceeds the total, the
completed-chapters count never exceeds the total, and the average quiz
score is 0 (not an exception) when the user has no quiz rows in the
course. -/
theorem get_user_course_progress_spec :
    ∀ (enrollments : List CourseEnrollment) (progress : List UserProgress)
      (subjects : List Subject) (chapters : List Chapter)
      (quiz_results : List QuizResult) (user_id : String) (course_id : Nat),
      ((∃ msg, get_user_course_progress enrollments progress subjects chapters
          quiz_results user_id course_id = .error msg) ↔
        ¬ ∃ e ∈ enrollments, e.user_id = user_id ∧ e.course_id = course_id)
      ∧ ((chapters.map (fun c => c.id)).Nodup →
        (progress.map (fun p => (p.user_id, p.subject_id, p.chapter_id))).Nodup →
        (∀ p ∈ progress, ∀ k, p.chapter_id = some k →
            ∃ c ∈ chapters, c.id = k ∧ c.subject_id = p.subject_id) →
        ∀ s, get_user_course_progress enrollments progress subjects chapters
            quiz_results user_id course_id = .ok s →
          s.subjects_completed.1 ≤ s.subjects_completed.2
          ∧ s.chapters_completed.1 ≤ s.chapters_completed.2
          ∧ ((¬ ∃ q ∈ quiz_results, q.user_id = user_id ∧ ∃ c ∈ chapters,
                c.id = q.chapter_id ∧ ∃ t ∈ subjects, t.id = c.subject_id
                  ∧ t.course_id = some course_id) →
              s.average_quiz_score = 0)) :=
  fun enrollments progress subjects chapters quiz_results user_id course_id =>
    ⟨gucp_error_iff enrollments progress subjects chapters quiz_results user_id course_id,
     fun hch hpn hfk s hok =>
       gucp_ok_bounds enrollments progress subjects chapters quiz_results
         user_id course_id hch hpn hfk s hok⟩

/-- Concrete enrollment table for the C4 witness. -/
def exEnrollments : List CourseEnrollment :=
  [{ user_id := "u", course_id := 1, enrollment_date := "2024-01-01T00:00:00",
     overall_progress_percentage := 0, last_activity := none }]

/-- Concrete subject table for the C4 witness. -/
def exProgSubjects : List Subject :=
  [{ id := 1, name := "Sample Book", course_id := some 1, total_chapters := 1,
     estimated_read_time := 30, interactive_elements_count := 0, created_at := 0 }]

/-- Concrete chapter table for the C4 witness. -/
def exProgChapters : List Chapter :=
  [{ id := 1, subject_id := 1, title := "Ch1", chapter_number := some 1,
     estimated_study_time := some 30, total_content_blocks := none,
     concept_count := none, visualization_count := none,
     exercise_count := none, case_study_count := none, content_blocks := none }]

/-- Concrete progress table for the C4 witness: one completed chapter row
and the completed subject-level row. -/
def exProgress : List UserProgress :=
  [{ user_id := "u", subject_id := 1, chapter_id := some 1,
     status := "completed", time_spent_minutes := 10 },
   { user_id := "u", subject_id := 1, chapter_id := none,
     status := "completed", time_spent_minutes := 0 }]

/-- Witness for C4 at a one-subject, one-chapter course with an enrolled
user and no quiz rows. -/
theorem get_user_course_progress_spec_witness :
    (match get_user_course_progress exEnrollments exProgress exProgSubjects
        exProgChapters [] "u" 1 with
      | .error _ => False
      | .ok s => s.subjects_completed.1 ≤ s.subjects_completed.2
          ∧ s.chapters_completed.1 ≤ s.chapters_completed.2
          ∧ s.average_quiz_score = 0) := by
  rcases hres : get_user_course_progress exEnrollments exProgress exProgSubjects
      exProgChapters [] "u" 1 with msg | s
  · have hiff := (get_user_course_progress_spec exEnrollments exProgress
      exProgSubjects exProgChapters [] "u" 1).1
    have hno := hiff.mp ⟨msg, hres⟩
    exact absurd ⟨exEnrollments.headI, by decide, rfl, rfl⟩ hno
  · have hfk : ∀ p ∈ exProgress, ∀ k, p.chapter_id = some k →
        ∃ c ∈ exProgChapters, c.id = k ∧ c.subject_id = p.subject_id := by
      intro p hp k hk
      simp only [exProgress, List.mem_cons, List.not_mem_nil, or_false] at hp
      rcases hp with rfl | rfl
      · simp only [Option.some_inj] at hk
        exact ⟨exProgChapters.headI, by decide, by rw [← hk]; decide, by decide⟩
      · simp at hk
    have h := (get_user_course_progress_spec exEnrollments exProgress
        exProgSubjects exProgChapters [] "u" 1).2 (by decide) (by decide) hfk s hres
    exact ⟨h.1, h.2.1, h.2.2 (by simp)⟩

/-! ## Claims C5 and C6: adaptive recommendations (`models.py`)

`_recommend_difficulty_level` and `get_adaptive_recommendations` are
embedded as functions over the table lists; a Python exception
(`AttributeError` on a missing referenced row, `ZeroDivisionError`) is an
`Option`/`Except` failure.  The `ORDER BY (Subject.created_at,
Chapter.chapter_number)` of the next-chapter query is modelled by a stable
insertion sort; the discarded initial `get_user_course_progress` read of
the source is omitted as dead code. -/

/-- Accumulates `entry.time_spent_minutes / int(chapter.estimated_study_time
or 30)` over the chapter-level entries; `none` models `AttributeError` on a
missing chapter or a zero divisor. -/
def ratioSumAux : List UserProgress → List Chapter → Option ℚ
  | [], _ => some 0
  | e :: es, chapters =>
    match chapters.find? (fun c => c.id == e.chapter_id.getD 0) with
    | none => none
    | some c =>
      let d := pyOrInt c.estimated_study_time 30
      if d = 0 then none
      else (ratioSumAux es chapters).map
        (fun s => (e.time_spent_minutes : ℚ) / (d : ℚ) + s)

/-- `_recommend_difficulty_level` (`models.py`): averages the
time-spent/estimate quotients over the chapter-level progress rows;
average above 1.5 means \"beginner\", below 0.7 \"advanced\", else
\"intermediate\"; empty input short-circuits to \"intermediate\". -/
def recommend_difficulty_level (progress_entries : List UserProgress)
    (chapters : List Chapter) : Option String :=
  if progress_entries.isEmpty then some "intermediate"
  else
    let chapter_progress_entries :=
      progress_entries.filter (fun e => pyTruthyOptNat e.chapter_id)
    if chapter_progress_entries.isEmpty then some "intermediate"
    else
      (ratioSumAux chapter_progress_entries chapters).map (fun s =>
        let avg_time_ratio := s / (chapter_progress_entries.length : ℚ)
        if avg_time_ratio > 3/2 then "beginner"
        else if avg_time_ratio < 7/10 then "advanced"
        else "intermediate")

/-- Specification form of one entry's quotient (0 when the referenced
chapter is absent, a case excluded by hypothesis where it matters). -/
def entryTimeOverEstimate (chapters : List Chapter) (e : UserProgress) : ℚ :=
  match chapters.find? (fun c => c.id == e.chapter_id.getD 0) with
  | some c => (e.time_spent_minutes : ℚ) / ((pyOrInt c.estimated_study_time 30 : ℤ) : ℚ)
  | none => 0

/-- Helper: `x or 30` never yields 0, so the quotient's divisor is never
zero. -/
theorem pyOrInt_thirty_ne_zero (x : Option Int) : pyOrInt x 30 ≠ 0 := by
  cases x with
  | none => simp [pyOrInt]
  | some v =>
    by_cases h : v = 0 <;> simp [pyOrInt, h]

/-- Helper: when every referenced chapter exists the accumulation succeeds
and equals the sum of the per-entry quotients. -/
theorem ratioSumAux_eq (chapters : List Chapter) :
    ∀ (l : List UserProgress),
      (∀ e ∈ l, (chapters.find? (fun c => c.id == e.chapter_id.getD 0)).isSome) →
      ratioSumAux l chapters = some ((l.map (entryTimeOverEstimate chapters)).sum) := by
  intro l
  induction l with
  | nil => intro _; simp [ratioSumAux]
  | cons e es ih =>
    intro h
    rcases Option.isSome_iff_exists.mp (h e (List.mem_cons_self e es)) with ⟨c, hc⟩
    rw [ratioSumAux, hc]
    dsimp only
    rw [if_neg (pyOrInt_thirty_ne_zero c.estimated_study_time),
      ih (fun x hx => h x (List.mem_cons_of_mem e hx))]
    simp [entryTimeOverEstimate, hc]

/-- C6 (amended): `_recommend_difficulty_level` returns \"intermediate\" on
an empty input, and — whenever every referenced chapter exists — never
fails (in particular there is no divide-by-zero: a stored
`estimated_study_time` of 0 is replaced by 30 by the Python `or`), and
returns \"beginner\"/\"advanced\"/\"intermediate\" by comparing the average
time quotient with 1.5 and 0.7. -/
theorem recommend_difficulty_level_spec :
    (∀ chapters : List Chapter, recommend_difficulty_level [] chapters = some "intermediate")
    ∧ (∀ (entries : List UserProgress) (chapters : List Chapter),
        (∀ e ∈ entries.filter (fun e => pyTruthyOptNat e.chapter_id),
          (chapters.find? (fun c => c.id == e.chapter_id.getD 0)).isSome) →
        (recommend_difficulty_level entries chapters).isSome = true
        ∧ (entries.filter (fun e => pyTruthyOptNat e.chapter_id) ≠ [] →
          recommend_difficulty_level entries chapters =
            some (
              if ((entries.filter (fun e => pyTruthyOptNat e.chapter_id)).map
                    (entryTimeOverEstimate chapters)).sum /
                  (((entries.filter (fun e => pyTruthyOptNat e.chapter_id)).length : ℚ)) > 3/2
              then "beginner"
              else if ((entries.filter (fun e => pyTruthyOptNat e.chapter_id)).map
                    (entryTimeOverEstimate chapters)).sum /
                  (((entries.filter (fun e => pyTruthyOptNat e.chapter_id)).length : ℚ)) < 7/10
              then "advanced"
              else "intermediate"))) := by
  constructor
  · intro chapters
    simp [recommend_difficulty_level]
  · intro entries chapters h
    by_cases he : entries.isEmpty
    · constructor
      · simp [recommend_difficulty_level, he]
      · intro hne
        rw [List.isEmpty_iff] at he
        subst he
        simp at hne
    · by_cases hc : (entries.filter (fun e => pyTruthyOptNat e.chapter_id)).isEmpty
      · constructor
        · simp [recommend_difficulty_level, he, hc]
        · intro hne
          rw [List.isEmpty_iff] at hc
          exact absurd hc hne
      · have hsum := ratioSumAux_eq chapters
          (entries.filter (fun e => pyTruthyOptNat e.chapter_id)) h
        constructor
        · simp [recommend_difficulty_level, he, hc, hsum]
        · intro _
          rw [recommend_difficulty_level]
          rw [if_neg (by simp [he]), if_neg (by simp [hc]), hsum]
          rfl

/-- A chapter-level progress row referencing a chapter whose
`estimated_study_time` is 0. -/
def zeroEstimateEntries : List UserProgress :=
  [{ user_id := "u", subject_id := 1, chapter_id := some 1,
     status := "in_progress", time_spent_minutes := 30 }]

/-- A chapter storing `estimated_study_time = 0`. -/
def zeroEstimateChapters : List Chapter :=
  [{ id := 1, subject_id := 1, title := "Ch1", chapter_number := some 1,
     estimated_study_time := some 0, total_content_blocks := none,
     concept_count := none, visualization_count := none,
     exercise_count := none, case_study_count := none, content_blocks := none }]

/-- Counterexample to C6 as stated: with a referenced chapter whose
`estimated_study_time` is 0 the function does not fail with a
divide-by-zero — `int(est or 30)` substitutes 30 and the call returns
normally (here \"intermediate\"). -/
theorem recommend_difficulty_zero_counterexample :
    zeroEstimateChapters.headI.estimated_study_time = some 0
    ∧ recommend_difficulty_level zeroEstimateEntries zeroEstimateChapters
        = some "intermediate" := by
  refine ⟨by decide, ?_⟩
  have hsum := ratioSumAux_eq zeroEstimateChapters
    (zeroEstimateEntries.filter (fun e => pyTruthyOptNat e.chapter_id)) (by decide)
  rw [recommend_difficulty_level]
  rw [if_neg (by decide), if_neg (by decide), hsum]
  have h1 : ((zeroEstimateEntries.filter (fun e => pyTruthyOptNat e.chapter_id)).map
      (entryTimeOverEstimate zeroEstimateChapters)).sum = 1 := by
    have hf : zeroEstimateChapters.find?
        (fun c => c.id == (1:Nat)) = some zeroEstimateChapters.headI := by decide
    simp [zeroEstimateEntries, pyTruthyOptNat, entryTimeOverEstimate,
      zeroEstimateChapters, pyOrInt]
  rw [show (zeroEstimateEntries.filter (fun e => pyTruthyOptNat e.chapter_id)) =
    zeroEstimateEntries from by decide] at h1 ⊢
  rw [h1]
  simp only [Option.map_some]
  norm_num [zeroEstimateEntries]

/-- Witness for C6 at the zero-estimate input. -/
theorem recommend_difficulty_level_spec_witness :
    recommend_difficulty_level zeroEstimateEntries zeroEstimateChapters
      = some "intermediate" := by
  have h := ((recommend_difficulty_level_spec.2 zeroEstimateEntries
    zeroEstimateChapters (by decide)).2 (by decide))
  rw [h]
  have hf : ((zeroEstimateEntries.filter (fun e => pyTruthyOptNat e.chapter_id)).map
      (entryTimeOverEstimate zeroEstimateChapters)).sum = 1 := by
    simp [zeroEstimateEntries, pyTruthyOptNat, entryTimeOverEstimate,
      zeroEstimateChapters, pyOrInt]
  rw [show (zeroEstimateEntries.filter (fun e => pyTruthyOptNat e.chapter_id)) =
    zeroEstimateEntries from by decide] at hf ⊢
  rw [hf]
  norm_num [zeroEstimateEntries]

/-- The `UserProgress JOIN Subject` query filtered on user and course,
shared by `get_adaptive_recommendations`. -/
def courseProgressEntries (progress : List UserProgress) (subjects : List Subject)
    (user_id : String) (course_id : Nat) : List UserProgress :=
  progress.filter (fun p => p.user_id == user_id
    && subjects.any (fun t => t.id == p.subject_id && t.course_id == some course_id))

/-- Average time per completed progress entry (subject-level rows
included); defaults to 30 when none are completed. -/
def avgTimePerChapter (progress : List UserProgress) (subjects : List Subject)
    (user_id : String) (course_id : Nat) : ℚ :=
  let entries := courseProgressEntries progress subjects user_id course_id
  let total_time := (entries.map (fun p => p.time_spent_minutes)).sum
  let completed_chapters := (entries.filter (fun e => e.status == "completed")).length
  if completed_chapters > 0 then (total_time : ℚ) / (completed_chapters : ℚ) else 30

/-- Deduplicated truthy `subject_domain` values of the user's sub-70%%
quiz results in the course (Python set order modelled as first
occurrence). -/
def struggleDomains (quiz_results : List QuizResult) (subjects : List Subject)
    (chapters : List Chapter) (user_id : String) (course_id : Nat) : List String :=
  (((quiz_results.filter (fun q => q.user_id == user_id
      && chapters.any (fun c => c.id == q.chapter_id
        && subjects.any (fun t => t.id == c.subject_id && t.course_id == some course_id))
      && decide (q.percentage < 70))).filterMap
    (fun q => q.subject_domain)).filter (fun d => d != "")).dedup

/-- The fixed strategy dictionary of
`_get_domain_specific_strategies`. -/
def domainStrategies : List (String × List String) :=
  [("economics",
    ["Focus on real-world examples and current events",
     "Practice with economic calculators and models",
     "Review graphical representations of economic concepts"]),
   ("computer_science",
    ["Code along with examples in your preferred language",
     "Build small projects to apply concepts",
     "Use visualization tools for algorithms and data structures"]),
   ("mathematics",
    ["Work through problems step-by-step",
     "Use visual aids and geometric interpretations",
     "Practice regularly with spaced repetition"]),
   ("business",
    ["Analyze real company case studies",
     "Connect theories to current business news",
     "Practice with business simulation tools"])]

/-- `_get_domain_specific_strategies` (`models.py`): up to three struggle
domains' canned strategies, falling back to the four generic ones. -/
def get_domain_specific_strategies (struggle_domains : List String) : List String :=
  let recommended := (struggle_domains.take 3).foldl (fun acc domain =>
    match domainStrategies.lookup domain with
    | some s => acc ++ s
    | none => acc) []
  if recommended.isEmpty then
    ["Review difficult concepts multiple times",
     "Take breaks between study sessions",
     "Ask questions when concepts are unclear",
     "Use active recall techniques"]
  else recommended

/-- Sort key of the next-chapter query: subject creation time, then
chapter number. -/
def chapterSortLe (subjects : List Subject) (a b : Chapter) : Bool :=
  let ka := ((subjects.find? (fun t => t.id == a.subject_id)).map
    (fun t => t.created_at)).getD 0
  let kb := ((subjects.find? (fun t => t.id == b.subject_id)).map
    (fun t => t.created_at)).getD 0
  ka < kb || (ka == kb && a.chapter_number.getD 0 ≤ b.chapter_number.getD 0)

/-- Insertion step of the stable sort modelling the query's ORDER BY. -/
def insertSorted (le : Chapter → Chapter → Bool) (c : Chapter) :
    List Chapter → List Chapter
  | [] => [c]
  | d :: ds => if le c d then c :: d :: ds else d :: insertSorted le c ds

/-- Stable insertion sort modelling the query's ORDER BY. -/
def sortChapters (le : Chapter → Chapter → Bool) : List Chapter → List Chapter
  | [] => []
  | c :: cs => insertSorted le c (sortChapters le cs)

/-- Builds the (id, title, subject name) payload of each recommended
chapter; `none` models `AttributeError` when `ch.subject` is missing. -/
def chapterInfoAux : List Chapter → List Subject → Option (List (Nat × String × String))
  | [], _ => some []
  | c :: cs, subjects =>
    match subjects.find? (fun t => t.id == c.subject_id) with
    | none => none
    | some t => (chapterInfoAux cs subjects).map (fun rest => (c.id, c.title, t.name) :: rest)

/-- `_get_next_recommended_chapters` (`models.py`): the first three
not-yet-completed chapters of the course in (subject creation, chapter
number) order. -/
def get_next_recommended_chapters (progress : List UserProgress)
    (subjects : List Subject) (chapters : List Chapter)
    (user_id : String) (course_id : Nat) : Option (List (Nat × String × String)) :=
  let completed_chapter_ids := (progress.filter (fun p => p.user_id == user_id
      && subjects.any (fun t => t.id == p.subject_id && t.course_id == some course_id)
      && p.status == "completed" && p.chapter_id != none)).filterMap
      (fun p => p.chapter_id)
  let next_chapters := (sortChapters (chapterSortLe subjects)
      (chapters.filter (fun c =>
        subjects.any (fun t => t.id == c.subject_id && t.course_id == some course_id)
        && !(completed_chapter_ids.contains c.id)))).take 3
  chapterInfoAux next_chapters subjects

/-- The recommendation payload of `get_adaptive_recommendations`,
flattened. -/
structure Recommendations where
  recommended_minutes_per_day : ℤ
  optimal_study_times : List String
  break_intervals : ℤ
  review_subjects : List String
  next_chapters : List (Nat × String × String)
  difficulty_adjustment : String
  learning_strategies : List String
  weekly_chapters : ℤ
  target_quiz_score : ℤ
  mastery_focus : List String
  deriving DecidableEq, Repr

/-- `get_adaptive_recommendations` (`models.py`): clamped daily minutes
and weekly chapter count derived from the average time per completed
entry, struggle domains, next chapters and difficulty; fails (models the
Python exception) when a referenced row is missing or when the average
time is 0 (float division by zero in `7*60/avg`). -/
def get_adaptive_recommendations (progress : List UserProgress)
    (subjects : List Subject) (chapters : List Chapter)
    (quiz_results : List QuizResult) (user_id : String) (course_id : Nat) :
    Except String Recommendations :=
  let progress_entries := courseProgressEntries progress subjects user_id course_id
  let avg_time_per_chapter := avgTimePerChapter progress subjects user_id course_id
  let struggle_domains := struggleDomains quiz_results subjects chapters user_id course_id
  match get_next_recommended_chapters progress subjects chapters user_id course_id with
  | none => .error "AttributeError"
  | some next_chapters =>
    match recommend_difficulty_level progress_entries chapters with
    | none => .error "AttributeError"
    | some difficulty =>
      if avg_time_per_chapter = 0 then
        .error "ZeroDivisionError: float division by zero"
      else
        .ok {
          recommended_minutes_per_day :=
            max 30 (min 120 (pyInt (avg_time_per_chapter * (7/10)))),
          optimal_study_times := ["morning", "evening"],
          break_intervals := 25,
          review_subjects := struggle_domains.take 3,
          next_chapters := next_chapters,
          difficulty_adjustment := difficulty,
          learning_strategies := get_domain_specific_strategies struggle_domains,
          weekly_chapters :=
            max 1 (min 5 (pyInt (7 * 60 / avg_time_per_chapter))),
          target_quiz_score := 85,
          mastery_focus := struggle_domains.take 2 }

/-- Helper: insertion introduces no new element. -/
theorem mem_insertSorted (le : Chapter → Chapter → Bool) (c x : Chapter) :
    ∀ (l : List Chapter), x ∈ insertSorted le c l → x = c ∨ x ∈ l := by
  intro l
  induction l with
  | nil => intro h; simp [insertSorted] at h; exact Or.inl h
  | cons d ds ih =>
    intro h
    rw [insertSorted] at h
    by_cases hle : le c d
    · rw [if_pos hle] at h
      rcases List.mem_cons.mp h with rfl | h2
      · exact Or.inl rfl
      · exact Or.inr h2
    · rw [if_neg hle] at h
      rcases List.mem_cons.mp h with rfl | h2
      · exact Or.inr (List.mem_cons_self _ _)
      · rcases ih h2 with h3 | h3
        · exact Or.inl h3
        · exact Or.inr (List.mem_cons_of_mem _ h3)

/-- Helper: sorting introduces no new element. -/
theorem mem_sortChapters (le : Chapter → Chapter → Bool) (x : Chapter) :
    ∀ (l : List Chapter), x ∈ sortChapters le l → x ∈ l := by
  intro l
  induction l with
  | nil => intro h; simp [sortChapters] at h
  | cons c cs ih =>
    intro h
    rw [sortChapters] at h
    rcases mem_insertSorted le c x _ h with rfl | h2
    · exact List.mem_cons_self _ _
    · exact List.mem_cons_of_mem _ (ih h2)

/-- Helper: the payload construction succeeds when every chapter's subject
exists. -/
theorem chapterInfoAux_isSome (subjects : List Subject) :
    ∀ (l : List Chapter),
      (∀ c ∈ l, (subjects.find? (fun t => t.id == c.subject_id)).isSome) →
      (chapterInfoAux l subjects).isSome := by
  intro l
  induction l with
  | nil => intro _; simp [chapterInfoAux]
  | cons c cs ih =>
    intro h
    rcases Option.isSome_iff_exists.mp (h c (List.mem_cons_self c cs)) with ⟨t, ht⟩
    rw [chapterInfoAux, ht]
    dsimp only
    rcases Option.isSome_iff_exists.mp
      (ih (fun x hx => h x (List.mem_cons_of_mem c hx))) with ⟨rest, hrest⟩
    rw [hrest]
    rfl

/-- Helper: the next-chapter query succeeds when every chapter's subject
exists. -/
theorem get_next_recommended_chapters_isSome (progress : List UserProgress)
    (subjects : List Subject) (chapters : List Chapter)
    (user_id : String) (course_id : Nat)
    (h : ∀ c ∈ chapters, (subjects.find? (fun t => t.id == c.subject_id)).isSome) :
    (get_next_recommended_chapters progress subjects chapters user_id course_id).isSome := by
  apply chapterInfoAux_isSome
  intro c hc
  apply h
  have h1 := List.mem_of_mem_take hc
  exact List.mem_of_mem_filter (mem_sortChapters _ _ _ h1)

/-- Helper: the difficulty recommendation succeeds when every referenced
chapter exists. -/
theorem recommend_difficulty_isSome (entries : List UserProgress)
    (chapters : List Chapter)
    (h : ∀ e ∈ entries.filter (fun e => pyTruthyOptNat e.chapter_id),
      (chapters.find? (fun c => c.id == e.chapter_id.getD 0)).isSome) :
    (recommend_difficulty_level entries chapters).isSome := by
  by_cases he : entries.isEmpty
  · simp [recommend_difficulty_level, he]
  · by_cases hc : (entries.filter (fun e => pyTruthyOptNat e.chapter_id)).isEmpty
    · simp [recommend_difficulty_level, he, hc]
    · simp [recommend_difficulty_level, he, hc, ratioSumAux_eq chapters _ h]

/-- C5 (amended): when every referenced row exists and the
average-time-per-completed-entry figure (total time over completed
entries, 30 when none are completed) is non-zero,
`get_adaptive_recommendations` returns `recommended_minutes_per_day` =
`int(0.7 x avg)` clamped to [30, 120] and `weekly_chapters` =
`int(7*60/avg)` clamped to [1, 5], both always inside their clamp ranges;
when completed entries exist with zero total time the average is 0 and the
computation raises `ZeroDivisionError` instead of returning. -/
theorem get_adaptive_recommendations_spec :
    ∀ (progress : List UserProgress) (subjects : List Subject)
      (chapters : List Chapter) (quiz_results : List QuizResult)
      (user_id : String) (course_id : Nat),
      (∀ e ∈ (courseProgressEntries progress subjects user_id course_id).filter
          (fun e => pyTruthyOptNat e.chapter_id),
        (chapters.find? (fun c => c.id == e.chapter_id.getD 0)).isSome) →
      (∀ c ∈ chapters, (subjects.find? (fun t => t.id == c.subject_id)).isSome) →
      avgTimePerChapter progress subjects user_id course_id ≠ 0 →
      (get_adaptive_recommendations progress subjects chapters quiz_results
          user_id course_id
        = .ok {
            recommended_minutes_per_day := max 30 (min 120 (pyInt
              (avgTimePerChapter progress subjects user_id course_id * (7/10)))),
            optimal_study_times := ["morning", "evening"],
            break_intervals := 25,
            review_subjects :=
              (struggleDomains quiz_results subjects chapters user_id course_id).take 3,
            next_chapters := (get_next_recommended_chapters progress subjects
              chapters user_id course_id).getD [],
            difficulty_adjustment := (recommend_difficulty_level
              (courseProgressEntries progress subjects user_id course_id) chapters).getD "",
            learning_strategies := get_domain_specific_strategies
              (struggleDomains quiz_results subjects chapters user_id course_id),
            weekly_chapters := max 1 (min 5 (pyInt
              (7 * 60 / avgTimePerChapter progress subjects user_id course_id))),
            target_quiz_score := 85,
            mastery_focus :=
              (struggleDomains quiz_results subjects chapters user_id course_id).take 2 })
      ∧ (30 : ℤ) ≤ max 30 (min 120 (pyInt
          (avgTimePerChapter progress subjects user_id course_id * (7/10))))
      ∧ max 30 (min 120 (pyInt
          (avgTimePerChapter progress subjects user_id course_id * (7/10)))) ≤ 120
      ∧ (1 : ℤ) ≤ max 1 (min 5 (pyInt
          (7 * 60 / avgTimePerChapter progress subjects user_id course_id)))
      ∧ max 1 (min 5 (pyInt
          (7 * 60 / avgTimePerChapter progress subjects user_id course_id))) ≤ 5 := by
  intro progress subjects chapters quiz_results user_id course_id h1 h2 h3
  rcases Option.isSome_iff_exists.mp
    (get_next_recommended_chapters_isSome progress subjects chapters
      user_id course_id h2) with ⟨nc, hnc⟩
  rcases Option.isSome_iff_exists.mp
    (recommend_difficulty_isSome
      (courseProgressEntries progress subjects user_id course_id) chapters h1)
    with ⟨diff, hdiff⟩
  refine ⟨?_, le_max_left _ _, max_le (by norm_num) (min_le_left _ _),
    le_max_left _ _, max_le (by norm_num) (min_le_left _ _)⟩
  rw [get_adaptive_recommendations]
  rw [hnc]
  dsimp only
  rw [hdiff]
  dsimp only
  rw [if_neg h3]
  rfl

/-- Concrete subject table for the C5 witness and counterexample. -/
def recWitnessSubjects : List Subject :=
  [{ id := 1, name := "Sample Book", course_id := some 1, total_chapters := 1,
     estimated_read_time := 30, interactive_elements_count := 0, created_at := 0 }]

/-- Concrete chapter table for the C5 witness and counterexample. -/
def recWitnessChapters : List Chapter :=
  [{ id := 1, subject_id := 1, title := "Ch1", chapter_number := some 1,
     estimated_study_time := some 30, total_content_blocks := none,
     concept_count := none, visualization_count := none,
     exercise_count := none, case_study_count := none, content_blocks := none }]

/-- Witness for C5 with no progress rows (average defaults to 30). -/
theorem get_adaptive_recommendations_spec_witness :
    get_adaptive_recommendations [] recWitnessSubjects recWitnessChapters [] "u" 1
      = .ok {
          recommended_minutes_per_day := max 30 (min 120 (pyInt
            (avgTimePerChapter [] recWitnessSubjects "u" 1 * (7/10)))),
          optimal_study_times := ["morning", "evening"],
          break_intervals := 25,
          review_subjects := (struggleDomains [] recWitnessSubjects recWitnessChapters "u" 1).take 3,
          next_chapters := (get_next_recommended_chapters [] recWitnessSubjects
            recWitnessChapters "u" 1).getD [],
          difficulty_adjustment := (recommend_difficulty_level
            (courseProgressEntries [] recWitnessSubjects "u" 1) recWitnessChapters).getD "",
          learning_strategies := get_domain_specific_strategies
            (struggleDomains [] recWitnessSubjects recWitnessChapters "u" 1),
          weekly_chapters := max 1 (min 5 (pyInt
            (7 * 60 / avgTimePerChapter [] recWitnessSubjects "u" 1))),
          target_quiz_score := 85,
          mastery_focus := (struggleDomains [] recWitnessSubjects recWitnessChapters "u" 1).take 2 } := by
  have havg : avgTimePerChapter [] recWitnessSubjects "u" 1 = 30 := by
    rw [avgTimePerChapter]
    rw [show courseProgressEntries [] recWitnessSubjects "u" 1 = [] from rfl]
    norm_num
  exact (get_adaptive_recommendations_spec [] recWitnessSubjects recWitnessChapters
    [] "u" 1 (by decide) (by decide) (by rw [havg]; norm_num)).1

/-- A completed progress row with zero time spent: the average time per
completed chapter evaluates to 0. -/
def divzeroProgress : List UserProgress :=
  [{ user_id := "u", subject_id := 1, chapter_id := some 1,
     status := "completed", time_spent_minutes := 0 }]

/-- Counterexample to C5 as stated: with one completed entry of zero time
spent the average is 0 and `get_adaptive_recommendations` raises
(`7*60/0.0`) instead of returning clamped values — the computation does
not never-raise. -/
theorem get_adaptive_recommendations_divzero_counterexample :
    avgTimePerChapter divzeroProgress recWitnessSubjects "u" 1 = 0
    ∧ get_adaptive_recommendations divzeroProgress recWitnessSubjects
        recWitnessChapters [] "u" 1
      = .error "ZeroDivisionError: float division by zero" := by
  have havg : avgTimePerChapter divzeroProgress recWitnessSubjects "u" 1 = 0 := by
    rw [avgTimePerChapter]
    rw [show courseProgressEntries divzeroProgress recWitnessSubjects "u" 1
      = divzeroProgress from by decide]
    norm_num [divzeroProgress]
  refine ⟨havg, ?_⟩
  rcases Option.isSome_iff_exists.mp
    (get_next_recommended_chapters_isSome divzeroProgress recWitnessSubjects
      recWitnessChapters "u" 1 (by decide)) with ⟨nc, hnc⟩
  rcases Option.isSome_iff_exists.mp
    (recommend_difficulty_isSome
      (courseProgressEntries divzeroProgress recWitnessSubjects "u" 1)
      recWitnessChapters (by decide)) with ⟨diff, hdiff⟩
  rw [get_adaptive_recommendations, hnc]
  dsimp only
  rw [hdiff]
  dsimp only
  rw [if_pos havg]
